import Mathlib

/-!
Verification of the TPC-C Flask web application (app.py, services/order_service.py,
database/spanner_connector.py) against its natural-language specification.

The Python code is shallowly embedded: Python values flowing through the app are
modelled by `PyVal` (arbitrary-precision ints as `Int`, decimals/floats as `ℚ`),
dictionaries by association lists, the external Spanner database by an oracle
function passed as a parameter, and Python exceptions by `Except String`.
Every handler / service / connector wrapper catches all exceptions, which is
modelled by a total wrapper around an `Except`-valued body.
-/

/-- Model of a Python value as it flows through this application: `none` is
Python `None`, `int` an arbitrary-precision integer, `num` an exact model of
a decimal/float quantity, `str` a string, `dt` a datetime (carrying its
isoformat rendering). -/
inductive PyVal where
  | none
  | bool (b : Bool)
  | int (i : Int)
  | num (q : ℚ)
  | str (s : String)
  | dt (iso : String)
deriving Repr, DecidableEq

/-- A Python dict with string keys, as produced by the connector row mapping. -/
abbrev Row := List (String × PyVal)

/-- Query parameters: a Python dict of bind parameters. -/
abbrev Params := List (String × PyVal)

/-- Python `dict.get(k)`: the first binding of key `k`. -/
def dictGet (r : Row) (k : String) : Option PyVal :=
  (r.find? (fun p => p.1 == k)).map (fun p => p.2)

/-- Python `dict.get(k, default)`. -/
def dictGetD (r : Row) (k : String) (dflt : PyVal) : PyVal :=
  (dictGet r k).getD dflt

/-- Python `d[k]`: raises `KeyError` when the key is absent. -/
def getItem (r : Row) (k : String) : Except String PyVal :=
  match dictGet r k with
  | some v => .ok v
  | Option.none => .error ("KeyError: " ++ k)

/-! ## Handler pagination arithmetic (app.py lines 183-227, 327-342, 414-429)

The `/orders`, `/inventory` and `/payments` handlers contain a textually
identical pagination block.  `offset = (page - 1) * limit` is computed at
app.py:187/301/386 and the `pagination` dict at app.py:213-227/327-342/414-429.
Python `//` is floor division, modelled by `Int.fdiv`. -/

/-- Handler computation `offset = (page - 1) * limit`, app.py line 187 (and 301, 386). -/
def handlerOffset (page limit : Int) : Int := (page - 1) * limit

/-- The `pagination` template dict built by the orders / inventory / payments
handlers. -/
structure Pagination where
  page : Int
  limit : Int
  total_count : Int
  total_pages : Int
  has_prev : Bool
  has_next : Bool
  prev_page : Option Int
  next_page : Option Int
  start_item : Int
  end_item : Int
deriving Repr, DecidableEq

/-- The pagination block shared verbatim by the orders (app.py:213-227),
inventory (app.py:328-342) and payments (app.py:415-429) handlers.
`total_count` comes from the service result, `has_prev`/`has_next` are passed
through from it. -/
def handlerPagination (page limit total_count : Int) (has_prev has_next : Bool) :
    Pagination :=
  let offset := handlerOffset page limit
  let total_pages : Int :=
    if total_count > 0 then Int.fdiv (total_count + limit - 1) limit else 1
  { page := page
    limit := limit
    total_count := total_count
    total_pages := total_pages
    has_prev := has_prev
    has_next := has_next
    prev_page := if page > 1 then some (page - 1) else Option.none
    next_page := if page < total_pages then some (page + 1) else Option.none
    start_item := if total_count > 0 then offset + 1 else 0
    end_item := min (offset + limit) total_count }

/-! ## String helpers mirroring the Python `str` operations used by the
connector (spanner_connector.py lines 171-217).  All are structurally
recursive so that concrete instances evaluate in the kernel. -/

/-- Python whitespace for `str.strip`. -/
def isPyWS (c : Char) : Bool := c == ' ' || c == '\n' || c == '\t' || c == '\r'

/-- Python `s.strip()`. -/
def trimChars (s : List Char) : List Char :=
  ((s.dropWhile isPyWS).reverse.dropWhile isPyWS).reverse

/-- Python `pat in s` for strings. -/
def listContains (pat : List Char) (s : List Char) : Bool :=
  match s with
  | [] => pat.isEmpty
  | _ :: rest => pat.isPrefixOf s || listContains pat rest

/-- Python `s.find(pat)`: index of the first occurrence, `none` when absent. -/
def idxOfSub (pat : List Char) (s : List Char) : Option Nat :=
  match s with
  | [] => if pat.isEmpty then some 0 else Option.none
  | _ :: rest =>
    if pat.isPrefixOf s then some 0
    else (idxOfSub pat rest).map (fun i => i + 1)

/-- Fuel-driven worker for `splitOnL` (Python `s.split(sep)`). -/
def splitOnAux (sep : List Char) : Nat → List Char → List Char → List (List Char)
  | 0, s, acc => [acc.reverse ++ s]
  | fuel + 1, s, acc =>
    match s with
    | [] => [acc.reverse]
    | c :: rest =>
      if sep.isPrefixOf s then
        acc.reverse :: splitOnAux sep fuel (s.drop sep.length) []
      else splitOnAux sep fuel rest (c :: acc)

/-- Python `s.split(sep)` for a non-empty separator. -/
def splitOnL (sep s : List Char) : List (List Char) :=
  splitOnAux sep s.length s []

/-! ## Connector column-name inference (spanner_connector.py lines 151-223)

In the Python source the fallback branch (no driver field metadata) never
assigns `column_names` before its first use, so every path through it raises
`UnboundLocalError`; the shallow embedding models an unbound Python local as
`Option.none`. -/

/-- The exception text raised by reading an unbound local. -/
def ulError : String :=
  "UnboundLocalError: local variable column_names referenced before assignment"

/-- Python `column_names.append(col)` where `column_names` may be unbound. -/
def appendUnboundCheck (cn : Option (List String)) (c : String) :
    Except String (Option (List String)) :=
  match cn with
  | Option.none => .error ulError
  | some l => .ok (some (l ++ [c]))

/-- Python `if \x27 AS \x27 in col.upper(): col = col.split(\x27 AS \x27)[1].strip()`
(spanner_connector.py lines 187-188). -/
def processColAS (col : List Char) : Except String (List Char) :=
  if listContains " AS ".data (col.map Char.toUpper) then
    match (splitOnL " AS ".data col).get? 1 with
    | some c2 => .ok (trimChars c2)
    | Option.none => .error "IndexError: list index out of range"
  else .ok col

/-- Python `if . in col: col = col.split(.)[-1].strip()`
(spanner_connector.py lines 190-191). -/
def processColDot (col : List Char) : List Char :=
  if listContains ".".data col then trimChars ((splitOnL ".".data col).getLastD [])
  else col

/-- The fallback branch of the column-name computation
(spanner_connector.py lines 174-192).  `column_names` is unbound (`none`)
on entry and is only ever touched through `appendUnboundCheck`. -/
def fallbackColNames (query : String) : Except String (Option (List String)) :=
  let cn : Option (List String) := Option.none
  let qU := query.data.map Char.toUpper
  if listContains "SELECT".data qU then
    let select_start : Int := ((idxOfSub "SELECT".data qU).getD 0 : Int) + 6
    let from_start : Int :=
      match idxOfSub "FROM".data qU with
      | some i => (i : Int)
      | Option.none => -1
    if from_start > select_start then
      let select_clause :=
        trimChars ((query.data.take from_start.toNat).drop select_start.toNat)
      (splitOnL [','] select_clause).foldlM
        (fun acc col => do
          let col := trimChars col
          let col ← processColAS col
          let col := processColDot col
          appendUnboundCheck acc (String.mk col)) cn
    else pure cn
  else pure cn

/-- Column-name resolution of `execute_query`
(spanner_connector.py lines 171-201): driver metadata when available and
truthy, otherwise the fallback extraction, then the
`if not column_names:` defaults (`count` for `COUNT(*)` queries, generic
`col_i` otherwise). -/
def computeColumnNames (fieldsMeta : Option (List String)) (query : String)
    (rows_data : List (List PyVal)) : Except String (List String) := do
  let cn : Option (List String) ←
    match fieldsMeta with
    | some (f :: fs) => pure (some (f :: fs))
    | _ => fallbackColNames query
  match cn with
  | Option.none => .error ulError
  | some cols =>
    if cols.isEmpty then
      if listContains "COUNT(*)".data (query.data.map Char.toUpper) then
        pure ["count"]
      else
        pure ((List.range ((rows_data.head?.map List.length).getD 0)).map
          (fun i => "col_" ++ toString i))
    else pure cols

/-- Row-value conversion (spanner_connector.py lines 209-214): datetimes are
rendered via `isoformat()`, everything else is passed through. -/
def pyValForJson (v : PyVal) : PyVal :=
  match v with
  | .dt iso => .str iso
  | v => v

/-- The `for i, value in enumerate(row)` dict building
(spanner_connector.py lines 204-215): the column name is
`column_names[i] if i < len(column_names) else f"col_\x7bi\x7d"`. -/
def rowToDict (column_names : List String) (row : List PyVal) : Row :=
  row.enum.map (fun p =>
    ((column_names.get? p.1).getD ("col_" ++ toString p.1), pyValForJson p.2))

/-- The driver result of `snapshot.execute_sql`: optional field metadata plus
the raw rows.  An `Except.error` models an exception raised by the driver. -/
structure ResultSet where
  fields : Option (List String)
  rows : List (List PyVal)

/-- The external Spanner driver: queries with bind parameters to results. -/
abbrev Driver := String → Params → Except String ResultSet

/-- Body of `SpannerConnector.execute_query`
(spanner_connector.py lines 155-217), before the catch-all handler. -/
def execute_query_body (driver : Driver) (query : String) (params : Params) :
    Except String (List Row) := do
  let results ← driver query params
  let rows_data := results.rows
  let column_names ← computeColumnNames results.fields query rows_data
  pure (rows_data.map (rowToDict column_names))

/-- Method `SpannerConnector.execute_query` (spanner_connector.py lines 151-223):
any exception is caught, logged, and an empty list returned. -/
def execute_query (driver : Driver) (query : String) (params : Params) :
    List Row :=
  match execute_query_body driver query params with
  | .ok rows => rows
  | .error _ => []

/-! ## Paginated connector reads (spanner_connector.py lines 264-376, 378-496,
625-739) -/

/-- Python `int(x)` truncation toward zero on the exact numeric model. -/
def ratTrunc (q : ℚ) : Int := if q < 0 then ⌈q⌉ else ⌊q⌋

/-- Python `int(v)`. -/
def pyInt (v : PyVal) : Except String Int :=
  match v with
  | .int i => .ok i
  | .num q => .ok (ratTrunc q)
  | .bool b => .ok (if b then 1 else 0)
  | .str s =>
    match s.toInt? with
    | some i => .ok i
    | Option.none => .error "ValueError: invalid literal for int() with base 10"
  | _ => .error "TypeError: int() argument must be a number"

/-- Python `total_count = 0; for row in count_results: total_count = int(row[0]) if
row[0] is not None else 0; break` (spanner_connector.py lines 438-441,
318-321, 680-683). -/
def extractCount (rows : List (List PyVal)) : Except String Int :=
  match rows with
  | [] => .ok 0
  | row :: _ =>
    match row with
    | [] => .error "IndexError: list index out of range"
    | PyVal.none :: _ => .ok 0
    | v :: _ => pyInt v

/-- Driver metadata when available and truthy, else the hard-coded fallback
column list (spanner_connector.py lines 456-460 and analogues). -/
def colNamesOrFallback (m : Option (List String)) (fallback : List String) :
    List String :=
  match m with
  | some (f :: fs) => f :: fs
  | _ => fallback

/-- Result dict of `SpannerConnector.get_orders`. -/
structure OrdersPage where
  orders : List Row
  total_count : Int
  limit : Int
  offset : Int
  has_next : Bool
  has_prev : Bool
deriving Repr

/-- Result dict of `SpannerConnector.get_payment_history_paginated`. -/
structure PaymentsPage where
  payments : List Row
  total_count : Int
  limit : Int
  offset : Int
  has_next : Bool
  has_prev : Bool
deriving Repr

/-- Result dict of `SpannerConnector.get_inventory_paginated`. -/
structure InventoryPage where
  inventory : List Row
  total_count : Int
  limit : Int
  offset : Int
  has_next : Bool
  has_prev : Bool
deriving Repr

/-- Base query of `get_orders` (spanner_connector.py lines 390-397), with the
double space after `no.no_d_id =` preserved from the source. -/
def ordersBaseQuery : String :=
  "\n                SELECT o.o_id, o.o_w_id, o.o_d_id, o.o_c_id, o.o_entry_d, o.o_ol_cnt, o.o_carrier_id,\n                       c.c_first, c.c_middle, c.c_last,\n                       CASE WHEN no.no_o_id IS NOT NULL THEN \x27New\x27 ELSE \x27Delivered\x27 END as status\n                FROM order_table o\n                JOIN customer c ON c.c_w_id = o.o_w_id AND c.c_d_id = o.o_d_id AND c.c_id = o.o_c_id\n                LEFT JOIN new_order no ON no.no_w_id = o.o_w_id AND no.no_d_id =  o.o_d_id AND no.no_o_id = o.o_id\n            "

/-- Fallback column names of `get_orders` (spanner_connector.py line 460). -/
def ordersFallbackCols : List String :=
  ["o_id", "o_w_id", "o_d_id", "o_c_id", "o_entry_d", "o_ol_cnt",
   "o_carrier_id", "c_first", "c_middle", "c_last", "status"]

/-- Body of `SpannerConnector.get_orders` (spanner_connector.py lines
388-485): filter construction, COUNT query, page query, row mapping and the
pagination flags. -/
def get_orders_body (db : Driver) (warehouse_id district_id customer_id : Option Int)
    (status : Option String) (limit offset : Int) : Except String OrdersPage := do
  let conds0 : List String := []
  let params0 : Params := []
  let ctr0 : Nat := 1
  let (conds1, params1, ctr1) :=
    match warehouse_id with
    | some v => (conds0 ++ ["o.o_w_id = $" ++ toString ctr0],
                 params0 ++ [("p" ++ toString ctr0, PyVal.int v)], ctr0 + 1)
    | Option.none => (conds0, params0, ctr0)
  let (conds2, params2, ctr2) :=
    match district_id with
    | some v => (conds1 ++ ["o.o_d_id = $" ++ toString ctr1],
                 params1 ++ [("p" ++ toString ctr1, PyVal.int v)], ctr1 + 1)
    | Option.none => (conds1, params1, ctr1)
  let (conds3, params3, ctr3) :=
    match customer_id with
    | some v => (conds2 ++ ["o.o_c_id = $" ++ toString ctr2],
                 params2 ++ [("p" ++ toString ctr2, PyVal.int v)], ctr2 + 1)
    | Option.none => (conds2, params2, ctr2)
  let conds4 :=
    match status with
    | some s =>
      if s = "new" then conds3 ++ ["no.no_o_id IS NOT NULL"]
      else if s = "delivered" then conds3 ++ ["no.no_o_id IS NULL"]
      else conds3
    | Option.none => conds3
  let query1 :=
    if conds4.isEmpty then ordersBaseQuery
    else ordersBaseQuery ++ " WHERE " ++ String.intercalate " AND " conds4
  let count_query := "SELECT COUNT(*) as count FROM (" ++ query1 ++ ") as subquery"
  let countRes ← db count_query params3
  let total_count ← extractCount countRes.rows
  let query2 := query1 ++ " ORDER BY o.o_entry_d DESC LIMIT $" ++ toString ctr3 ++
    " OFFSET $" ++ toString (ctr3 + 1)
  let params4 := params3 ++ [("p" ++ toString ctr3, PyVal.int limit),
    ("p" ++ toString (ctr3 + 1), PyVal.int offset)]
  let mainRes ← db query2 params4
  let orders := mainRes.rows.map
    (rowToDict (colNamesOrFallback mainRes.fields ordersFallbackCols))
  pure { orders := orders, total_count := total_count, limit := limit,
         offset := offset, has_next := decide (offset + limit < total_count),
         has_prev := decide (offset > 0) }

/-- Method `SpannerConnector.get_orders` (spanner_connector.py lines 378-496) with
its catch-all returning an empty page. -/
def get_orders (db : Driver) (warehouse_id district_id customer_id : Option Int)
    (status : Option String) (limit offset : Int) : OrdersPage :=
  match get_orders_body db warehouse_id district_id customer_id status limit offset with
  | .ok page => page
  | .error _ =>
    { orders := [], total_count := 0, limit := limit, offset := offset,
      has_next := false, has_prev := false }

/-- Base query of `get_payment_history_paginated`
(spanner_connector.py lines 275-283). -/
def paymentsBaseQuery : String :=
  "\n                SELECT h.h_w_id, h.h_d_id, h.h_c_id, h.h_amount, h.h_date,\n                       c.c_first, c.c_middle, c.c_last,\n                       w.w_name as warehouse_name, d.d_name as district_name\n                FROM history h\n                JOIN customer c ON c.c_w_id = h.h_w_id AND c.c_d_id = h.h_d_id AND c.c_id = h.h_c_id\n                JOIN warehouse w ON w.w_id = h.h_w_id\n                JOIN district d ON d.d_w_id = h.h_w_id AND d.d_id = h.h_d_id\n            "

/-- Fallback column names of `get_payment_history_paginated`
(spanner_connector.py line 340). -/
def paymentsFallbackCols : List String :=
  ["h_w_id", "h_d_id", "h_c_id", "h_amount", "h_date", "c_first", "c_middle",
   "c_last", "warehouse_name", "district_name"]

/-- Body of `SpannerConnector.get_payment_history_paginated`
(spanner_connector.py lines 273-365). -/
def get_payment_history_paginated_body (db : Driver)
    (warehouse_id district_id customer_id : Option Int) (limit offset : Int) :
    Except String PaymentsPage := do
  let conds0 : List String := []
  let params0 : Params := []
  let ctr0 : Nat := 1
  let (conds1, params1, ctr1) :=
    match warehouse_id with
    | some v => (conds0 ++ ["h.h_w_id = $" ++ toString ctr0],
                 params0 ++ [("p" ++ toString ctr0, PyVal.int v)], ctr0 + 1)
    | Option.none => (conds0, params0, ctr0)
  let (conds2, params2, ctr2) :=
    match district_id with
    | some v => (conds1 ++ ["h.h_d_id = $" ++ toString ctr1],
                 params1 ++ [("p" ++ toString ctr1, PyVal.int v)], ctr1 + 1)
    | Option.none => (conds1, params1, ctr1)
  let (conds3, params3, ctr3) :=
    match customer_id with
    | some v => (conds2 ++ ["h.h_c_id = $" ++ toString ctr2],
                 params2 ++ [("p" ++ toString ctr2, PyVal.int v)], ctr2 + 1)
    | Option.none => (conds2, params2, ctr2)
  let query1 :=
    if conds3.isEmpty then paymentsBaseQuery
    else paymentsBaseQuery ++ " WHERE " ++ String.intercalate " AND " conds3
  let count_query := "SELECT COUNT(*) as count FROM (" ++ query1 ++ ") as subquery"
  let countRes ← db count_query params3
  let total_count ← extractCount countRes.rows
  let query2 := query1 ++ " ORDER BY h.h_date DESC LIMIT $" ++ toString ctr3 ++
    " OFFSET $" ++ toString (ctr3 + 1)
  let params4 := params3 ++ [("p" ++ toString ctr3, PyVal.int limit),
    ("p" ++ toString (ctr3 + 1), PyVal.int offset)]
  let mainRes ← db query2 params4
  let payments := mainRes.rows.map
    (rowToDict (colNamesOrFallback mainRes.fields paymentsFallbackCols))
  pure { payments := payments, total_count := total_count, limit := limit,
         offset := offset, has_next := decide (offset + limit < total_count),
         has_prev := decide (offset > 0) }

/-- Method `SpannerConnector.get_payment_history_paginated`
(spanner_connector.py lines 264-376) with its catch-all. -/
def get_payment_history_paginated (db : Driver)
    (warehouse_id district_id customer_id : Option Int) (limit offset : Int) :
    PaymentsPage :=
  match get_payment_history_paginated_body db warehouse_id district_id customer_id
      limit offset with
  | .ok page => page
  | .error _ =>
    { payments := [], total_count := 0, limit := limit, offset := offset,
      has_next := false, has_prev := false }

/-- Base query of `get_inventory_paginated`
(spanner_connector.py lines 636-643). -/
def inventoryBaseQuery : String :=
  "\n                SELECT s.s_i_id, s.s_w_id, s.s_quantity, s.s_ytd, s.s_order_cnt, s.s_remote_cnt,\n                       i.i_name, i.i_price, i.i_data,\n                       w.w_name\n                FROM stock s\n                JOIN item i ON i.i_id = s.s_i_id\n                JOIN warehouse w ON w.w_id = s.s_w_id\n            "

/-- Fallback column names of `get_inventory_paginated`
(spanner_connector.py lines 702-703). -/
def inventoryFallbackCols : List String :=
  ["s_i_id", "s_w_id", "s_quantity", "s_ytd", "s_order_cnt", "s_remote_cnt",
   "i_name", "i_price", "i_data", "w_name"]

/-- Body of `SpannerConnector.get_inventory_paginated`
(spanner_connector.py lines 634-728).  `if item_search:` is Python
truthiness, so an empty search string adds no condition. -/
def get_inventory_paginated_body (db : Driver)
    (warehouse_id low_stock_threshold : Option Int) (item_search : Option String)
    (limit offset : Int) : Except String InventoryPage := do
  let conds0 : List String := []
  let params0 : Params := []
  let ctr0 : Nat := 1
  let (conds1, params1, ctr1) :=
    match warehouse_id with
    | some v => (conds0 ++ ["s.s_w_id = $" ++ toString ctr0],
                 params0 ++ [("p" ++ toString ctr0, PyVal.int v)], ctr0 + 1)
    | Option.none => (conds0, params0, ctr0)
  let (conds2, params2, ctr2) :=
    match low_stock_threshold with
    | some v => (conds1 ++ ["s.s_quantity < $" ++ toString ctr1],
                 params1 ++ [("p" ++ toString ctr1, PyVal.int v)], ctr1 + 1)
    | Option.none => (conds1, params1, ctr1)
  let (conds3, params3, ctr3) :=
    match item_search with
    | some s =>
      if s.isEmpty then (conds2, params2, ctr2)
      else (conds2 ++ ["(LOWER(i.i_name) LIKE LOWER($" ++ toString ctr2 ++
              ") OR LOWER(i.i_data) LIKE LOWER($" ++ toString ctr2 ++ "))"],
            params2 ++ [("p" ++ toString ctr2, PyVal.str ("%" ++ s ++ "%"))],
            ctr2 + 1)
    | Option.none => (conds2, params2, ctr2)
  let query1 :=
    if conds3.isEmpty then inventoryBaseQuery
    else inventoryBaseQuery ++ " WHERE " ++ String.intercalate " AND " conds3
  let count_query := "SELECT COUNT(*) as count FROM (" ++ query1 ++ ") as subquery"
  let countRes ← db count_query params3
  let total_count ← extractCount countRes.rows
  let query2 := query1 ++ " ORDER BY s.s_quantity ASC LIMIT $" ++ toString ctr3 ++
    " OFFSET $" ++ toString (ctr3 + 1)
  let params4 := params3 ++ [("p" ++ toString ctr3, PyVal.int limit),
    ("p" ++ toString (ctr3 + 1), PyVal.int offset)]
  let mainRes ← db query2 params4
  let inventory := mainRes.rows.map
    (rowToDict (colNamesOrFallback mainRes.fields inventoryFallbackCols))
  pure { inventory := inventory, total_count := total_count, limit := limit,
         offset := offset, has_next := decide (offset + limit < total_count),
         has_prev := decide (offset > 0) }

/-- Method `SpannerConnector.get_inventory_paginated`
(spanner_connector.py lines 625-739) with its catch-all. -/
def get_inventory_paginated (db : Driver)
    (warehouse_id low_stock_threshold : Option Int) (item_search : Option String)
    (limit offset : Int) : InventoryPage :=
  match get_inventory_paginated_body db warehouse_id low_stock_threshold
      item_search limit offset with
  | .ok page => page
  | .error _ =>
    { inventory := [], total_count := 0, limit := limit, offset := offset,
      has_next := false, has_prev := false }

/-! ## Observable database state for the idempotence claim

The only connector operation that changes the external database is
`execute_ddl` (spanner_connector.py lines 118-149, via `update_ddl`); every
read issues `SELECT` statements on snapshots.  The state pairs the applied
DDL history with the pure read oracle. -/

/-- Observable state of the external database as seen by the connector. -/
structure DBState where
  ddl_history : List String
  driver : Driver

/-- Method `get_orders` as a state transformer: it opens read snapshots only
(spanner_connector.py lines 436, 451), leaving the database untouched. -/
def get_ordersS (s : DBState) (warehouse_id district_id customer_id : Option Int)
    (status : Option String) (limit offset : Int) : DBState × OrdersPage :=
  (s, get_orders s.driver warehouse_id district_id customer_id status limit offset)

/-- Method `execute_ddl` as a state transformer (spanner_connector.py lines
118-149): the one write path, which does alter the database. -/
def execute_ddlS (s : DBState) (ddl_statement : String) : DBState × Bool :=
  ({ s with ddl_history := s.ddl_history ++ [ddl_statement] }, true)

/-! ## Python arithmetic on `PyVal` (used by the service layer) -/

/-- Values Python treats as ints (`bool` is an int subtype). -/
def pyAsInt : PyVal → Option Int
  | .int i => some i
  | .bool b => some (if b then 1 else 0)
  | _ => Option.none

/-- Numeric view of a value, exact rationals for the decimal/float model. -/
def pyToQ : PyVal → Option ℚ
  | .int i => some (i : ℚ)
  | .num q => some q
  | .bool b => some (if b then 1 else 0)
  | _ => Option.none

/-- A Python binary arithmetic operator: int when both operands are ints,
numeric otherwise, `TypeError` on non-numbers. -/
def pyNumBin (g : Int → Int → Int) (f : ℚ → ℚ → ℚ) (a b : PyVal) :
    Except String PyVal :=
  match pyAsInt a, pyAsInt b with
  | some x, some y => .ok (.int (g x y))
  | _, _ =>
    match pyToQ a, pyToQ b with
    | some x, some y => .ok (.num (f x y))
    | _, _ => .error "TypeError: unsupported operand type"

/-- Python `+`. -/
def pyAdd : PyVal → PyVal → Except String PyVal :=
  pyNumBin (fun x y => x + y) (fun x y => x + y)

/-- Python `-`. -/
def pySub : PyVal → PyVal → Except String PyVal :=
  pyNumBin (fun x y => x - y) (fun x y => x - y)

/-- Python `*`. -/
def pyMul : PyVal → PyVal → Except String PyVal :=
  pyNumBin (fun x y => x * y) (fun x y => x * y)

/-- Python `==` on the values this app compares (numeric cross-type equality,
structural otherwise). -/
def pyEq (a b : PyVal) : Bool :=
  match pyToQ a, pyToQ b with
  | some x, some y => x == y
  | _, _ => a == b

/-- Python `str(v)` as used in f-strings of the service layer. -/
def pyStr : PyVal → String
  | .none => "None"
  | .bool b => if b then "True" else "False"
  | .int i => toString i
  | .num q => toString q
  | .str s => s
  | .dt iso => iso

/-- Python `round(x, 2)` on the exact numeric model: scale by 100 and round
half to even. -/
def bankersRound2 (q : ℚ) : ℚ :=
  let s := q * 100
  let f : Int := ⌊s⌋
  let frac := s - (f : ℚ)
  let n : Int :=
    if frac < 1 / 2 then f
    else if 1 / 2 < frac then f + 1
    else if f % 2 = 0 then f else f + 1
  (n : ℚ) / 100

/-- Python `round(v, 2)` on a `PyVal` (ints are returned unchanged). -/
def pyRound2 : PyVal → Except String PyVal
  | .int i => .ok (.int i)
  | .num q => .ok (.num (bankersRound2 q))
  | .bool b => .ok (.int (if b then 1 else 0))
  | _ => .error "TypeError: type does not define rounding"

/-! ## OrderService.execute_new_order (order_service.py lines 24-183) -/

/-- The connector as seen by the service: `execute_query` is total (it
swallows its own exceptions and returns a list of dict rows). -/
abbrev DBFun := String → Params → List Row

/-- One query issued to the connector. -/
structure QueryRec where
  sql : String
  params : Params
deriving Repr, DecidableEq

/-- Query text from order_service.py lines 40-44. -/
def customer_query : String :=
  "\n                SELECT c_first, c_middle, c_last, c_credit, c_discount, c_balance\n                FROM customer \n                WHERE c_w_id = @warehouse_id AND c_d_id = @district_id AND c_id = @customer_id\n            "

/-- Query text from order_service.py lines 57-59. -/
def warehouse_query : String :=
  "\n                SELECT w_tax, w_ytd FROM warehouse WHERE w_id = @warehouse_id\n            "

/-- Query text from order_service.py lines 67-69. -/
def district_query : String :=
  "\n                SELECT d_tax, d_ytd FROM district WHERE d_w_id = @warehouse_id AND d_id = @district_id\n            "

/-- Query text from order_service.py lines 81-85. -/
def order_id_query : String :=
  "\n                SELECT COALESCE(MAX(o_id), 0) + 1 as next_order_id \n                FROM order_table \n                WHERE o_w_id = @warehouse_id AND o_d_id = @district_id\n            "

/-- Query text from order_service.py lines 106-108. -/
def item_query : String :=
  "\n                    SELECT i_name, i_price, i_data FROM item WHERE i_id = @item_id\n                "

/-- Query text from order_service.py lines 117-122. -/
def stock_query : String :=
  "\n                    SELECT s_quantity, s_dist_01, s_dist_02, s_dist_03, s_dist_04, s_dist_05,\n                           s_dist_06, s_dist_07, s_dist_08, s_dist_09, s_dist_10, s_ytd, s_order_cnt, s_remote_cnt\n                    FROM stock \n                    WHERE s_i_id = @item_id AND s_w_id = @supply_warehouse_id\n                "

/-- Parameters of the customer query (order_service.py lines 45-49). -/
def newOrderCustomerParams (warehouse_id district_id customer_id : Int) : Params :=
  [("warehouse_id", .int warehouse_id), ("district_id", .int district_id),
   ("customer_id", .int customer_id)]

/-- Parameters of the warehouse query (order_service.py line 60). -/
def newOrderWarehouseParams (warehouse_id : Int) : Params :=
  [("warehouse_id", .int warehouse_id)]

/-- Parameters of the district and next-order-id queries
(order_service.py lines 70-73, 86-89). -/
def newOrderDistrictParams (warehouse_id district_id : Int) : Params :=
  [("warehouse_id", .int warehouse_id), ("district_id", .int district_id)]

/-- Parameters of the per-item item query (order_service.py line 109). -/
def newOrderItemParams (item_id : PyVal) : Params := [("item_id", item_id)]

/-- Parameters of the per-item stock query (order_service.py lines 123-126). -/
def newOrderStockParams (item_id supply_warehouse_id : PyVal) : Params :=
  [("item_id", item_id), ("supply_warehouse_id", supply_warehouse_id)]

/-- Python `f"\x7bdistrict_id:02d\x7d"`. -/
def pad2 (d : Int) : String :=
  if 0 ≤ d ∧ d < 10 then "0" ++ toString d else toString d

/-- The stock district column accessed at order_service.py line 147:
`s_dist_\x7bdistrict_id:02d\x7d` when `district_id <= 10`, else `s_dist_01`. -/
def distColName (district_id : Int) : String :=
  if district_id ≤ 10 then "s_dist_" ++ pad2 district_id else "s_dist_01"

/-- Outcome of the per-item loop of `execute_new_order`: a controlled
early-return error dict, or completion with the accumulated
`total_amount` and `order_lines`.  Python exceptions travel in the
surrounding `Except`. -/
inductive LoopOut where
  | earlyErr (e : String)
  | done (total_amount : PyVal) (order_lines : List Row)
deriving Repr

/-- The `for i, item in enumerate(items)` loop of `execute_new_order`
(order_service.py lines 100-149), also returning the queries it issued. -/
def newOrderLoop (db : DBFun) (warehouse_id district_id : Int) (order_id : PyVal)
    (items : List Row) (i : Nat) (total_amount : PyVal) (order_lines : List Row) :
    (Except String LoopOut) × List QueryRec :=
  match items with
  | [] => (.ok (.done total_amount order_lines), [])
  | item :: rest =>
    let item_id := dictGetD item "item_id" PyVal.none
    let supply_warehouse_id := dictGetD item "supply_warehouse_id" (PyVal.int warehouse_id)
    let quantity := dictGetD item "quantity" (PyVal.int 1)
    let iparams := newOrderItemParams item_id
    match db item_query iparams with
    | [] => (.ok (.earlyErr ("Item " ++ pyStr item_id ++ " not found")),
             [{ sql := item_query, params := iparams }])
    | item_info :: _ =>
      let sparams := newOrderStockParams item_id supply_warehouse_id
      match db stock_query sparams with
      | [] => (.ok (.earlyErr ("Stock not found for item " ++ pyStr item_id ++
                " in warehouse " ++ pyStr supply_warehouse_id)),
               [{ sql := item_query, params := iparams },
                { sql := stock_query, params := sparams }])
      | stock :: _ =>
        let step : Except String (PyVal × Row) := do
          let i_price ← getItem item_info "i_price"
          let line_amount ← pyMul i_price quantity
          let new_total ← pyAdd total_amount line_amount
          let ol_dist_info ← getItem stock (distColName district_id)
          pure (new_total,
            [("ol_o_id", order_id), ("ol_d_id", .int district_id),
             ("ol_w_id", .int warehouse_id), ("ol_number", .int ((i : Int) + 1)),
             ("ol_i_id", item_id), ("ol_supply_w_id", supply_warehouse_id),
             ("ol_quantity", quantity), ("ol_amount", line_amount),
             ("ol_dist_info", ol_dist_info)])
        match step with
        | .error e => (.error e,
            [{ sql := item_query, params := iparams },
             { sql := stock_query, params := sparams }])
        | .ok (new_total, order_line) =>
          let rec_result := newOrderLoop db warehouse_id district_id order_id rest
            (i + 1) new_total (order_lines ++ [order_line])
          (rec_result.1, { sql := item_query, params := iparams } ::
                { sql := stock_query, params := sparams } :: rec_result.2)

/-- The result dict of `execute_new_order`: either
`\x7b"success": False, "error": e\x7d` or the success dict of
order_service.py lines 171-179. -/
inductive NOResult where
  | failure (error : String)
  | success (order_id : PyVal) (customer_name : String) (total_amount : PyVal)
      (items_count : Nat) (region_created : String) (message : String)
deriving Repr, DecidableEq

/-- The `success` field of the result dict. -/
def NOResult.isSuccess : NOResult → Bool
  | .success _ _ _ _ _ _ => true
  | .failure _ => false

/-- The `order_id` field of a success dict. -/
def NOResult.orderIdField : NOResult → Option PyVal
  | .success oid _ _ _ _ _ => some oid
  | .failure _ => Option.none

/-- The `total_amount` field of a success dict. -/
def NOResult.totalAmountField : NOResult → Option PyVal
  | .success _ _ amt _ _ _ => some amt
  | .failure _ => Option.none

/-- The `items_count` field of a success dict. -/
def NOResult.itemsCountField : NOResult → Option Nat
  | .success _ _ _ n _ _ => some n
  | .failure _ => Option.none

/-- The `message` field of a success dict. -/
def NOResult.messageField : NOResult → Option String
  | .success _ _ _ _ _ msg => some msg
  | .failure _ => Option.none

/-- Body of `OrderService.execute_new_order` (order_service.py lines 32-179),
before the catch-all handler, also returning the queries issued to the
connector. -/
def execute_new_order_body (db : DBFun) (region_name : String)
    (warehouse_id district_id customer_id : Int) (items : List Row) :
    (Except String NOResult) × List QueryRec :=
  if items.isEmpty then (.ok (.failure "No items provided"), [])
  else
    let cparams := newOrderCustomerParams warehouse_id district_id customer_id
    let t1 : List QueryRec := [{ sql := customer_query, params := cparams }]
    match db customer_query cparams with
    | [] => (.ok (.failure "Customer not found"), t1)
    | customer :: _ =>
      let wparams := newOrderWarehouseParams warehouse_id
      let t2 := t1 ++ [{ sql := warehouse_query, params := wparams }]
      match db warehouse_query wparams with
      | [] => (.ok (.failure "Warehouse not found"), t2)
      | warehouse :: _ =>
        let dparams := newOrderDistrictParams warehouse_id district_id
        let t3 := t2 ++ [{ sql := district_query, params := dparams }]
        match db district_query dparams with
        | [] => (.ok (.failure "District not found"), t3)
        | district :: _ =>
          let t4 := t3 ++ [{ sql := order_id_query, params := dparams }]
          match db order_id_query dparams with
          | [] => (.ok (.failure "Failed to get next order ID"), t4)
          | oid_row :: _ =>
            match getItem oid_row "next_order_id" with
            | .error e => (.error e, t4)
            | .ok order_id =>
              let loop_result :=
                newOrderLoop db warehouse_id district_id order_id items 0 (.int 0) []
              let trace := t4 ++ loop_result.2
              match loop_result.1 with
              | .error e => (.error e, trace)
              | .ok (.earlyErr e) => (.ok (.failure e), trace)
              | .ok (.done total_amount _order_lines) =>
                let fin : Except String NOResult := do
                  let d_tax ← getItem district "d_tax"
                  let w_tax ← getItem warehouse "w_tax"
                  let tax1 ← pyAdd (.int 1) d_tax
                  let tax2 ← pyAdd tax1 w_tax
                  let amt1 ← pyMul total_amount tax2
                  let c_discount ← getItem customer "c_discount"
                  let disc ← pySub (.int 1) c_discount
                  let amt2 ← pyMul amt1 disc
                  let _o_all_local : Int :=
                    if items.all (fun it =>
                        pyEq (dictGetD it "supply_warehouse_id" (.int warehouse_id))
                          (.int warehouse_id)) then 1 else 0
                  let c_first ← getItem customer "c_first"
                  let c_middle ← getItem customer "c_middle"
                  let c_last ← getItem customer "c_last"
                  let rounded ← pyRound2 amt2
                  pure (.success order_id
                    (pyStr c_first ++ " " ++ pyStr c_middle ++ " " ++ pyStr c_last)
                    rounded items.length region_name
                    "Order created successfully (simulated - no actual database changes)")
                match fin with
                | .error e => (.error e, trace)
                | .ok r => (.ok r, trace)

/-- Method `OrderService.execute_new_order` (order_service.py lines 24-183): any
exception is caught and turned into `\x7b"success": False, "error": str(e)\x7d`. -/
def execute_new_order (db : DBFun) (region_name : String)
    (warehouse_id district_id customer_id : Int) (items : List Row) :
    NOResult × List QueryRec :=
  match execute_new_order_body db region_name warehouse_id district_id
      customer_id items with
  | (.ok r, t) => (r, t)
  | (.error e, t) => (.failure e, t)

/-- A query text is a pure read: it starts with `SELECT` (after leading
whitespace) and contains no data-modifying keyword. -/
def isSelectOnly (q : String) : Bool :=
  "SELECT".data.isPrefixOf (q.data.dropWhile isPyWS) &&
  !(listContains "INSERT".data q.data) &&
  !(listContains "UPDATE".data q.data) &&
  !(listContains "DELETE".data q.data)

/-! ## API route handlers (app.py lines 481-524, 527-568, 586-607)

The request body is an abstract JSON dict `List (String × β)`; `get_json`
models `request.get_json()` (which may raise, or return `None` for a missing
body); the service operation is an opaque function into an arbitrary result
type `ρ`.  Fallible logging steps (`len(data["items"])` at app.py:501 and the
`:.2f` format at app.py:547) are oracles as well. -/

/-- A handler response body: either the JSON error envelope or the jsonified
service result. -/
inductive ApiBody (ρ : Type) where
  | errObj (error : String)
  | result (r : ρ)

/-- An HTTP response of a JSON API handler, together with whether the
underlying service operation was invoked. -/
structure ApiResponse (ρ : Type) where
  status : Nat
  body : ApiBody ρ
  service_called : Bool

/-- Python `field in data` on a dict. -/
def hasKey {β : Type} (data : List (String × β)) (k : String) : Bool :=
  data.any (fun p => p.1 == k)

/-- Python `data[k]` on the abstract dict. -/
def getKeyB {β : Type} (data : List (String × β)) (k : String) : Except String β :=
  match data.find? (fun p => p.1 == k) with
  | some p => .ok p.2
  | Option.none => .error ("KeyError: " ++ k)

/-- The validation loop `for field in required_fields: if field not in data:`
returns the first missing field (app.py lines 495-498, 541-544, 594-596). -/
def firstMissing {β : Type} (fields : List String) (data : List (String × β)) :
    Option String :=
  fields.find? (fun f => !(hasKey data f))

/-- Required fields list, app.py line 494. -/
def new_order_required_fields : List String :=
  ["warehouse_id", "district_id", "customer_id", "items"]

/-- Required fields list, app.py line 540. -/
def payment_required_fields : List String :=
  ["warehouse_id", "district_id", "customer_id", "amount"]

/-- Required fields list, app.py line 593. -/
def delivery_required_fields : List String :=
  ["warehouse_id", "carrier_id"]

/-- Body of the `/api/new-order` POST handler (app.py lines 488-517): get the
JSON body (`field not in None` raises `TypeError`), validate required fields
in order, log (computing `len(data["items"])`), then invoke the service. -/
def api_new_order_body {β ρ : Type}
    (get_json : Except String (Option (List (String × β))))
    (pylen : β → Except String Nat) (svc : β → β → β → β → ρ) :
    Except String (ApiResponse ρ) := do
  let data? ← get_json
  match data? with
  | Option.none => .error "TypeError: argument of type NoneType is not iterable"
  | some data =>
    match firstMissing new_order_required_fields data with
    | some f =>
      pure { status := 400, body := .errObj ("Missing required field: " ++ f),
             service_called := false }
    | Option.none => do
      let wid ← getKeyB data "warehouse_id"
      let did ← getKeyB data "district_id"
      let cid ← getKeyB data "customer_id"
      let its ← getKeyB data "items"
      let _len ← pylen its
      pure { status := 200, body := .result (svc wid did cid its),
             service_called := true }

/-- The `/api/new-order` handler (app.py lines 481-524) with its catch-all
returning HTTP 500 and a JSON error object. -/
def api_new_order {β ρ : Type}
    (get_json : Except String (Option (List (String × β))))
    (pylen : β → Except String Nat) (svc : β → β → β → β → ρ) : ApiResponse ρ :=
  match api_new_order_body get_json pylen svc with
  | .ok resp => resp
  | .error e => { status := 500, body := .errObj e, service_called := false }

/-- Body of the `/api/payment` POST handler (app.py lines 534-563); the log
line formats `data["amount"]` with `:.2f`, which may raise. -/
def api_payment_body {β ρ : Type}
    (get_json : Except String (Option (List (String × β))))
    (fmt2f : β → Except String String) (svc : β → β → β → β → ρ) :
    Except String (ApiResponse ρ) := do
  let data? ← get_json
  match data? with
  | Option.none => .error "TypeError: argument of type NoneType is not iterable"
  | some data =>
    match firstMissing payment_required_fields data with
    | some f =>
      pure { status := 400, body := .errObj ("Missing required field: " ++ f),
             service_called := false }
    | Option.none => do
      let wid ← getKeyB data "warehouse_id"
      let did ← getKeyB data "district_id"
      let cid ← getKeyB data "customer_id"
      let amt ← getKeyB data "amount"
      let _s ← fmt2f amt
      pure { status := 200, body := .result (svc wid did cid amt),
             service_called := true }

/-- The `/api/payment` handler (app.py lines 527-568) with its catch-all. -/
def api_payment {β ρ : Type}
    (get_json : Except String (Option (List (String × β))))
    (fmt2f : β → Except String String) (svc : β → β → β → β → ρ) : ApiResponse ρ :=
  match api_payment_body get_json fmt2f svc with
  | .ok resp => resp
  | .error e => { status := 500, body := .errObj e, service_called := false }

/-- Body of the `/api/delivery` POST handler (app.py lines 589-603). -/
def api_delivery_body {β ρ : Type}
    (get_json : Except String (Option (List (String × β))))
    (svc : β → β → ρ) : Except String (ApiResponse ρ) := do
  let data? ← get_json
  match data? with
  | Option.none => .error "TypeError: argument of type NoneType is not iterable"
  | some data =>
    match firstMissing delivery_required_fields data with
    | some f =>
      pure { status := 400, body := .errObj ("Missing required field: " ++ f),
             service_called := false }
    | Option.none => do
      let wid ← getKeyB data "warehouse_id"
      let carid ← getKeyB data "carrier_id"
      pure { status := 200, body := .result (svc wid carid),
             service_called := true }

/-- The `/api/delivery` handler (app.py lines 586-607) with its catch-all. -/
def api_delivery {β ρ : Type}
    (get_json : Except String (Option (List (String × β))))
    (svc : β → β → ρ) : ApiResponse ρ :=
  match api_delivery_body get_json svc with
  | .ok resp => resp
  | .error e => { status := 500, body := .errObj e, service_called := false }

/-- The claim-side property that `f` is the first field of `fields` missing
from `data`, in the order of `fields`. -/
def IsFirstMissing {β : Type} (fields : List String) (data : List (String × β))
    (f : String) : Prop :=
  ∃ i, fields.get? i = some f ∧ hasKey data f = false ∧
    ∀ j, j < i → ∀ g, fields.get? j = some g → hasKey data g = true

/-- The per-item success hypotheses of the New Order loop: the item and stock
queries return a row, the item row carries a numeric `i_price` (given by
`price`), the optional `quantity` field is numeric (given by `qty`, default
`1`), and the stock row carries the accessed `s_dist_xx` column. -/
def ItemLookupOk (db : DBFun) (warehouse_id district_id : Int)
    (price qty : Row → ℚ) (it : Row) : Prop :=
  ∃ irow irest srow srest,
    db item_query (newOrderItemParams (dictGetD it "item_id" PyVal.none)) =
      irow :: irest ∧
    dictGet irow "i_price" = some (.num (price it)) ∧
    pyToQ (dictGetD it "quantity" (.int 1)) = some (qty it) ∧
    db stock_query (newOrderStockParams (dictGetD it "item_id" PyVal.none)
      (dictGetD it "supply_warehouse_id" (.int warehouse_id))) = srow :: srest ∧
    (dictGet srow (distColName district_id)).isSome = true

/-- The claim-side order total: sum over the items of `i_price * quantity`
with the quantity defaulting to 1 (carried by `qty`). -/
def orderItemsTotalQ (price qty : Row → ℚ) (items : List Row) : ℚ :=
  (items.map (fun it => price it * qty it)).sum

/-- A concrete connector oracle on which every New Order lookup succeeds:
taxes and discount are 0, every item costs 2. -/
def demoDb : DBFun := fun q _ =>
  if q == customer_query then
    [[("c_first", PyVal.str "A"), ("c_middle", PyVal.str "B"),
      ("c_last", PyVal.str "C"), ("c_discount", PyVal.num 0)]]
  else if q == warehouse_query then [[("w_tax", PyVal.num 0)]]
  else if q == district_query then [[("d_tax", PyVal.num 0)]]
  else if q == order_id_query then [[("next_order_id", PyVal.int 1)]]
  else if q == item_query then [[("i_price", PyVal.num 2)]]
  else [[("s_dist_01", PyVal.str "dist-info")]]

/-- A concrete two-item order request. -/
def demoItems : List Row :=
  [[("item_id", PyVal.int 1), ("quantity", PyVal.num 1)],
   [("item_id", PyVal.int 2), ("quantity", PyVal.num 1)]]

/-! ## Remaining API route handlers (app.py lines 571-583, 586-607, 610-624,
667-696, 699-755, 758-809, 812-877, 880-901)

These handlers follow the same catch-all pattern; their service calls,
connector calls, clock reads and per-row dict accesses are oracles or occur
through the connector embedding. -/

/-- A JSON API response of a handler that carries no service-invocation
flag. -/
structure JsonResponse (ρ : Type) where
  status : Nat
  body : ApiBody ρ

/-- Python truthiness of the values flowing through this app, as used in
`x if x else None` (app.py lines 785-790, 853-855). -/
def pyTruthy : PyVal → Bool
  | .none => false
  | .bool b => b
  | .int i => i != 0
  | .num q => q != 0
  | .str s => !s.isEmpty
  | .dt _ => true

/-- Body of the `/api/order-status/<w>/<d>/<c>` handler (app.py lines
574-579): call the service and jsonify its result; the call is an oracle
that may raise. -/
def api_order_status_body {ρ : Type} (svc : Int → Int → Int → Except String ρ)
    (warehouse_id district_id customer_id : Int) :
    Except String (JsonResponse ρ) := do
  let result ← svc warehouse_id district_id customer_id
  pure { status := 200, body := .result result }

/-- The `/api/order-status` handler (app.py lines 571-583) with its
catch-all. -/
def api_order_status {ρ : Type} (svc : Int → Int → Int → Except String ρ)
    (warehouse_id district_id customer_id : Int) : JsonResponse ρ :=
  match api_order_status_body svc warehouse_id district_id customer_id with
  | .ok resp => resp
  | .error e => { status := 500, body := .errObj e }

/-- Body of the `/api/stock-level/<w>/<d>` handler (app.py lines 613-620):
`threshold` is `request.args.get("threshold", 10, type=int)`. -/
def api_stock_level_body {ρ : Type} (svc : Int → Int → Int → Except String ρ)
    (warehouse_id district_id threshold : Int) :
    Except String (JsonResponse ρ) := do
  let result ← svc warehouse_id district_id threshold
  pure { status := 200, body := .result result }

/-- The `/api/stock-level` handler (app.py lines 610-624) with its
catch-all. -/
def api_stock_level {ρ : Type} (svc : Int → Int → Int → Except String ρ)
    (warehouse_id district_id threshold : Int) : JsonResponse ρ :=
  match api_stock_level_body svc warehouse_id district_id threshold with
  | .ok resp => resp
  | .error e => { status := 500, body := .errObj e }

/-- The JSON body of `/api/health`: the healthy dict of app.py lines 884-889
or the unhealthy dict of app.py lines 895-901 (which carries an `error`
key). -/
inductive HealthBody where
  | healthy (status timestamp provider : String) (database_connection : Bool)
  | unhealthy (status timestamp error : String)

/-- An `/api/health` response. -/
structure HealthResponse where
  status : Nat
  body : HealthBody

/-- Body of the `/api/health` handler (app.py lines 883-891): the provider
name and connection test are oracles that may raise; `utcnow` is the
wall-clock isoformat timestamp (read again in the catch). -/
def api_health_body (utcnow : String) (provider : Except String String)
    (test_conn : Except String Bool) : Except String HealthResponse := do
  let p ← provider
  let c ← test_conn
  pure { status := 200, body := .healthy "healthy" utcnow p c }

/-- The `/api/health` handler (app.py lines 880-901) with its catch-all
returning the unhealthy dict and HTTP 500. -/
def api_health (utcnow : String) (provider : Except String String)
    (test_conn : Except String Bool) : HealthResponse :=
  match api_health_body utcnow provider test_conn with
  | .ok resp => resp
  | .error e => { status := 500, body := .unhealthy "unhealthy" utcnow e }

/-- Body of the `/api/test/acid/<test_type>` handler (app.py lines 670-692):
`init` models the `ACIDTests(db_connector)` construction and the
provider-name log; the five test runs are oracles; an unknown test type is
answered with 400. -/
def api_test_acid_body {ρ : Type} (test_type : String)
    (init : Except String Unit)
    (t_atomicity t_consistency t_isolation t_durability t_all :
      Except String ρ) : Except String (JsonResponse ρ) := do
  let _ ← init
  if test_type = "atomicity" then do
    let result ← t_atomicity
    pure { status := 200, body := .result result }
  else if test_type = "consistency" then do
    let result ← t_consistency
    pure { status := 200, body := .result result }
  else if test_type = "isolation" then do
    let result ← t_isolation
    pure { status := 200, body := .result result }
  else if test_type = "durability" then do
    let result ← t_durability
    pure { status := 200, body := .result result }
  else if test_type = "all" then do
    let result ← t_all
    pure { status := 200, body := .result result }
  else
    pure { status := 400, body := .errObj ("Unknown test type: " ++ test_type) }

/-- The `/api/test/acid/<test_type>` handler (app.py lines 667-696) with its
catch-all. -/
def api_test_acid {ρ : Type} (test_type : String) (init : Except String Unit)
    (t_atomicity t_consistency t_isolation t_durability t_all :
      Except String ρ) : JsonResponse ρ :=
  match api_test_acid_body test_type init t_atomicity t_consistency t_isolation
      t_durability t_all with
  | .ok resp => resp
  | .error e => { status := 500, body := .errObj e }

/-- Required fields of `/api/test/multi-region/create-order`,
app.py line 712. -/
def multi_region_create_order_required_fields : List String :=
  ["warehouse_id", "district_id", "customer_id", "items"]

/-- Body of the `/api/test/multi-region/create-order` handler (app.py lines
706-746): identical validation and logging shape to `/api/new-order`;
`post` models the conditional region-metadata enrichment of the service
result (app.py lines 741-744). -/
def api_test_multi_region_create_order_body {β ρ : Type}
    (get_json : Except String (Option (List (String × β))))
    (pylen : β → Except String Nat) (svc : β → β → β → β → ρ) (post : ρ → ρ) :
    Except String (ApiResponse ρ) := do
  let data? ← get_json
  match data? with
  | Option.none => .error "TypeError: argument of type NoneType is not iterable"
  | some data =>
    match firstMissing multi_region_create_order_required_fields data with
    | some f =>
      pure { status := 400, body := .errObj ("Missing required field: " ++ f),
             service_called := false }
    | Option.none => do
      let wid ← getKeyB data "warehouse_id"
      let did ← getKeyB data "district_id"
      let cid ← getKeyB data "customer_id"
      let its ← getKeyB data "items"
      let _len ← pylen its
      pure { status := 200, body := .result (post (svc wid did cid its)),
             service_called := true }

/-- The `/api/test/multi-region/create-order` handler (app.py lines 699-755)
with its catch-all; the error object of app.py lines 753-755 carries the
`error` key (its `execution_time_ms` companion is wall-clock timing). -/
def api_test_multi_region_create_order {β ρ : Type}
    (get_json : Except String (Option (List (String × β))))
    (pylen : β → Except String Nat) (svc : β → β → β → β → ρ) (post : ρ → ρ) :
    ApiResponse ρ :=
  match api_test_multi_region_create_order_body get_json pylen svc post with
  | .ok resp => resp
  | .error e => { status := 500, body := .errObj e, service_called := false }

/-- Query of `/api/test/multi-region/orders-by-region`, app.py lines
765-774. -/
def ordersByRegionQuery : String :=
  "\n            SELECT \n                o_w_id as warehouse_id,\n                COUNT(*) as order_count,\n                MIN(o_entry_d) as first_order,\n                MAX(o_entry_d) as last_order\n            FROM order_table \n            GROUP BY o_w_id\n            ORDER BY order_count DESC\n        "

/-- Success payload of `/api/test/multi-region/orders-by-region`
(app.py lines 798-805). -/
structure RegionStatsResult where
  success : Bool
  warehouse_stats : List Row
  current_region : String
  provider : String

/-- Body of the `/api/test/multi-region/orders-by-region` handler (app.py
lines 761-805): run the query through the connector, then re-key each row
(`row["warehouse_id"]` etc. may raise `KeyError`). -/
def api_test_multi_region_orders_by_region_body (driver : Driver)
    (current_region provider : String) :
    Except String (JsonResponse RegionStatsResult) := do
  let results := execute_query driver ordersByRegionQuery []
  let region_stats ← results.mapM (fun row => do
    let wid ← getItem row "warehouse_id"
    let cnt ← getItem row "order_count"
    let fo ← getItem row "first_order"
    let fo := if pyTruthy fo then fo else PyVal.none
    let lo ← getItem row "last_order"
    let lo := if pyTruthy lo then lo else PyVal.none
    pure ([("warehouse_id", wid), ("order_count", cnt), ("first_order", fo),
           ("last_order", lo)] : Row))
  let payload : RegionStatsResult :=
    { success := true, warehouse_stats := region_stats,
      current_region := current_region, provider := provider }
  pure { status := 200, body := .result payload }

/-- The `/api/test/multi-region/orders-by-region` handler (app.py lines
758-809) with its catch-all. -/
def api_test_multi_region_orders_by_region (driver : Driver)
    (current_region provider : String) : JsonResponse RegionStatsResult :=
  match api_test_multi_region_orders_by_region_body driver current_region
      provider with
  | .ok resp => resp
  | .error e => { status := 500, body := .errObj e }

/-- Query of `/api/test/multi-region/recent-orders`, app.py lines 822-838. -/
def recentOrdersQuery : String :=
  "\n            SELECT \n                o.o_id,\n                o.o_w_id,\n                o.o_d_id,\n                o.o_c_id,\n                o.o_entry_d,\n                c.c_first,\n                c.c_middle,\n                c.c_last,\n                CASE WHEN new_ord.no_o_id IS NOT NULL THEN \x27New\x27 ELSE \x27Delivered\x27 END as status\n            FROM order_table o\n            JOIN customer c ON c.c_w_id = o.o_w_id AND c.c_d_id = o.o_d_id AND c.c_id = o.o_c_id\n            LEFT JOIN new_order new_ord ON new_ord.no_w_id = o.o_w_id AND new_ord.no_d_id = o.o_d_id AND new_ord.no_o_id = o.o_id\n            ORDER BY o.o_entry_d DESC\n            LIMIT @limit\n        "

/-- Success payload of `/api/test/multi-region/recent-orders`
(app.py lines 866-873). -/
structure RecentOrdersResult where
  success : Bool
  orders : List Row
  current_region : String
  provider : String

/-- Body of the `/api/test/multi-region/recent-orders` handler (app.py lines
815-873): run the query through the connector with the `limit` bind
parameter, then re-key each row (`row["o_id"]` etc. may raise `KeyError`). -/
def api_test_multi_region_recent_orders_body (driver : Driver) (limit : Int)
    (current_region provider : String) :
    Except String (JsonResponse RecentOrdersResult) := do
  let results := execute_query driver recentOrdersQuery
    [("limit", PyVal.int limit)]
  let orders ← results.mapM (fun row => do
    let oid ← getItem row "o_id"
    let wid ← getItem row "o_w_id"
    let did ← getItem row "o_d_id"
    let cid ← getItem row "o_c_id"
    let od ← getItem row "o_entry_d"
    let od := if pyTruthy od then od else PyVal.none
    let cf ← getItem row "c_first"
    let cm ← getItem row "c_middle"
    let cl ← getItem row "c_last"
    let st ← getItem row "status"
    pure ([("order_id", oid), ("warehouse_id", wid), ("district_id", did),
           ("customer_id", cid), ("order_date", od),
           ("customer_name",
             .str (pyStr cf ++ " " ++ pyStr cm ++ " " ++ pyStr cl)),
           ("status", st), ("region", .str current_region)] : Row))
  let payload : RecentOrdersResult :=
    { success := true, orders := orders, current_region := current_region,
      provider := provider }
  pure { status := 200, body := .result payload }

/-- The `/api/test/multi-region/recent-orders` handler (app.py lines 812-877)
with its catch-all. -/
def api_test_multi_region_recent_orders (driver : Driver) (limit : Int)
    (current_region provider : String) : JsonResponse RecentOrdersResult :=
  match api_test_multi_region_recent_orders_body driver limit current_region
      provider with
  | .ok resp => resp
  | .error e => { status := 500, body := .errObj e }

/-! # Theorems -/

/-- Python `(t + l - 1) // l` computes the ceiling of `t / l` for a positive
divisor `l`. -/
lemma fdiv_add_pred_eq_ceil (t l : Int) (hl : 0 < l) :
    Int.fdiv (t + l - 1) l = ⌈(t : ℚ) / (l : ℚ)⌉ := by
  have hl0 : (0 : ℚ) < (l : ℚ) := by exact_mod_cast hl
  rw [Int.fdiv_eq_ediv _ (le_of_lt hl)]
  have hq := Int.ediv_add_emod (t + l - 1) l
  have hr0 : 0 ≤ (t + l - 1) % l := Int.emod_nonneg _ (ne_of_gt hl)
  have hrl : (t + l - 1) % l < l := Int.emod_lt_of_pos _ hl
  symm
  rw [Int.ceil_eq_iff]
  refine ⟨?_, ?_⟩
  · rw [lt_div_iff₀ hl0]
    have h1 : l * ((t + l - 1) / l) - l < t := by linarith
    have hcast : ((((t + l - 1) / l : Int) : ℚ) - 1) * (l : ℚ) =
        ((l * ((t + l - 1) / l) - l : Int) : ℚ) := by push_cast; ring
    rw [hcast]
    exact_mod_cast h1
  · rw [div_le_iff₀ hl0]
    have h2 : t ≤ l * ((t + l - 1) / l) := by linarith
    have hcast : (((t + l - 1) / l : Int) : ℚ) * (l : ℚ) =
        ((l * ((t + l - 1) / l) : Int) : ℚ) := by push_cast; ring
    rw [hcast]
    exact_mod_cast h2

/-- Claim C1: in the orders handler (and the textually identical inventory and
payments handlers), `offset = (page - 1) * limit`,
`total_pages = ceiling(total_count / limit)` when `total_count > 0` and `1`
when `total_count = 0` (or negative), `start_item = offset + 1` when
`total_count > 0` and `0` otherwise, and
`end_item = min(offset + limit, total_count)`; stated for every positive
`limit`. -/
theorem pagination_arithmetic_correct (page limit total_count : Int)
    (has_prev has_next : Bool) (hl : 0 < limit) :
    handlerOffset page limit = (page - 1) * limit ∧
    (handlerPagination page limit total_count has_prev has_next).total_pages =
      (if 0 < total_count then ⌈(total_count : ℚ) / (limit : ℚ)⌉ else 1) ∧
    (handlerPagination page limit total_count has_prev has_next).start_item =
      (if 0 < total_count then handlerOffset page limit + 1 else 0) ∧
    (handlerPagination page limit total_count has_prev has_next).end_item =
      min (handlerOffset page limit + limit) total_count := by
  refine ⟨rfl, ?_, rfl, rfl⟩
  simp only [handlerPagination]
  by_cases h : total_count > 0
  · simp [h, fdiv_add_pred_eq_ceil _ _ hl]
  · simp [h]

/-- Witness for C1 at `page = 2`, `limit = 10`, `total_count = 25`. -/
theorem pagination_arithmetic_correct_witness :
    (0 : Int) < 10 ∧
    handlerOffset 2 10 = 10 ∧
    (handlerPagination 2 10 25 true true).total_pages = 3 ∧
    (handlerPagination 2 10 25 true true).start_item = 11 ∧
    (handlerPagination 2 10 25 true true).end_item = 20 := by
  have h := pagination_arithmetic_correct 2 10 25 true true (by decide)
  refine ⟨by decide, h.1, ?_, ?_, ?_⟩
  · rw [h.2.1]
    have : ⌈(25 : ℚ) / (10 : ℚ)⌉ = 3 := by
      rw [Int.ceil_eq_iff]
      norm_num
    simp [this]
  · rw [h.2.2.1]
    norm_num [handlerOffset]
  · rw [h.2.2.2]
    norm_num [handlerOffset]

/-- Claim C5 (code bug evidence): on a query whose driver result carries no
field metadata, the fallback column-name inference of
`SpannerConnector.execute_query` does NOT run without error: `column_names`
is referenced before assignment, the body raises `UnboundLocalError`, and the
catch-all turns the whole call into an empty result instead of rows keyed by
inferred names. -/
theorem column_inference_unbound_local :
    execute_query_body
        (fun _ _ => .ok { fields := Option.none, rows := [[PyVal.int 5]] })
        "SELECT s_quantity FROM stock" [] = .error ulError ∧
    execute_query
        (fun _ _ => .ok { fields := Option.none, rows := [[PyVal.int 5]] })
        "SELECT s_quantity FROM stock" [] = [] :=
  ⟨rfl, rfl⟩

/-- Claim C7: no exception escapes an operation.  If the body of
`SpannerConnector.execute_query` raises, the wrapper returns `[]`; if the body
of `OrderService.execute_new_order` raises, the wrapper returns a
`success = False` dict carrying the message; and if the body of any of the
ten API route handlers (`/api/new-order`, `/api/payment`, `/api/delivery`,
`/api/order-status`, `/api/stock-level`, `/api/health`,
`/api/test/acid/<test_type>` and the three `/api/test/multi-region`
endpoints) raises, the handler returns HTTP 500 with a JSON object carrying
an `error` key instead of propagating. -/
theorem exceptions_never_escape :
    (∀ (driver : Driver) (query : String) (params : Params) (e : String),
      execute_query_body driver query params = .error e →
      execute_query driver query params = []) ∧
    (∀ (db : DBFun) (region_name : String)
      (warehouse_id district_id customer_id : Int) (items : List Row)
      (e : String) (t : List QueryRec),
      execute_new_order_body db region_name warehouse_id district_id customer_id
          items = (.error e, t) →
      execute_new_order db region_name warehouse_id district_id customer_id
          items = (.failure e, t)) ∧
    (∀ (β ρ : Type) (get_json : Except String (Option (List (String × β))))
      (pylen : β → Except String Nat) (svc : β → β → β → β → ρ) (e : String),
      api_new_order_body get_json pylen svc = .error e →
      api_new_order get_json pylen svc =
        { status := 500, body := .errObj e, service_called := false }) ∧
    (∀ (β ρ : Type) (get_json : Except String (Option (List (String × β))))
      (fmt2f : β → Except String String) (svc : β → β → β → β → ρ)
      (e : String),
      api_payment_body get_json fmt2f svc = .error e →
      api_payment get_json fmt2f svc =
        { status := 500, body := .errObj e, service_called := false }) ∧
    (∀ (β ρ : Type) (get_json : Except String (Option (List (String × β))))
      (svc : β → β → ρ) (e : String),
      api_delivery_body get_json svc = .error e →
      api_delivery get_json svc =
        { status := 500, body := .errObj e, service_called := false }) ∧
    (∀ (ρ : Type) (svc : Int → Int → Int → Except String ρ)
      (warehouse_id district_id customer_id : Int) (e : String),
      api_order_status_body svc warehouse_id district_id customer_id =
        .error e →
      api_order_status svc warehouse_id district_id customer_id =
        { status := 500, body := .errObj e }) ∧
    (∀ (ρ : Type) (svc : Int → Int → Int → Except String ρ)
      (warehouse_id district_id threshold : Int) (e : String),
      api_stock_level_body svc warehouse_id district_id threshold = .error e →
      api_stock_level svc warehouse_id district_id threshold =
        { status := 500, body := .errObj e }) ∧
    (∀ (utcnow : String) (provider : Except String String)
      (test_conn : Except String Bool) (e : String),
      api_health_body utcnow provider test_conn = .error e →
      api_health utcnow provider test_conn =
        { status := 500, body := .unhealthy "unhealthy" utcnow e }) ∧
    (∀ (ρ : Type) (test_type : String) (init : Except String Unit)
      (t1 t2 t3 t4 t5 : Except String ρ) (e : String),
      api_test_acid_body test_type init t1 t2 t3 t4 t5 = .error e →
      api_test_acid test_type init t1 t2 t3 t4 t5 =
        { status := 500, body := .errObj e }) ∧
    (∀ (β ρ : Type) (get_json : Except String (Option (List (String × β))))
      (pylen : β → Except String Nat) (svc : β → β → β → β → ρ) (post : ρ → ρ)
      (e : String),
      api_test_multi_region_create_order_body get_json pylen svc post =
        .error e →
      api_test_multi_region_create_order get_json pylen svc post =
        { status := 500, body := .errObj e, service_called := false }) ∧
    (∀ (driver : Driver) (current_region provider : String) (e : String),
      api_test_multi_region_orders_by_region_body driver current_region
        provider = .error e →
      api_test_multi_region_orders_by_region driver current_region provider =
        { status := 500, body := .errObj e }) ∧
    (∀ (driver : Driver) (limit : Int) (current_region provider : String)
      (e : String),
      api_test_multi_region_recent_orders_body driver limit current_region
        provider = .error e →
      api_test_multi_region_recent_orders driver limit current_region provider =
        { status := 500, body := .errObj e }) := by
  refine ⟨?_, ?_, ?_, ?_, ?_, ?_, ?_, ?_, ?_, ?_, ?_, ?_⟩
  · intro driver query params e h
    simp [execute_query, h]
  · intro db region_name warehouse_id district_id customer_id items e t h
    simp [execute_new_order, h]
  · intro β ρ get_json pylen svc e h
    simp [api_new_order, h]
  · intro β ρ get_json fmt2f svc e h
    simp [api_payment, h]
  · intro β ρ get_json svc e h
    simp [api_delivery, h]
  · intro ρ svc warehouse_id district_id customer_id e h
    simp [api_order_status, h]
  · intro ρ svc warehouse_id district_id threshold e h
    simp [api_stock_level, h]
  · intro utcnow provider test_conn e h
    simp [api_health, h]
  · intro ρ test_type init t1 t2 t3 t4 t5 e h
    simp [api_test_acid, h]
  · intro β ρ get_json pylen svc post e h
    simp [api_test_multi_region_create_order, h]
  · intro driver current_region provider e h
    simp [api_test_multi_region_orders_by_region, h]
  · intro driver limit current_region provider e h
    simp [api_test_multi_region_recent_orders, h]

/-- Witness for C7: a raising driver, a service run that hits a `KeyError`
reading `next_order_id`, and one raising-body instance of each of the ten
API route handlers. -/
theorem exceptions_never_escape_witness :
    execute_query (fun _ _ => .error "boom") "SELECT 1" [] = [] ∧
    execute_new_order (fun _ _ => [[("x", PyVal.none)]]) "default" 1 1 1 [[]] =
      (NOResult.failure "KeyError: next_order_id",
       [{ sql := customer_query, params := newOrderCustomerParams 1 1 1 },
        { sql := warehouse_query, params := newOrderWarehouseParams 1 },
        { sql := district_query, params := newOrderDistrictParams 1 1 },
        { sql := order_id_query, params := newOrderDistrictParams 1 1 }]) ∧
    @api_new_order Unit Unit (.error "bad json") (fun _ => .ok 0)
        (fun _ _ _ _ => ()) =
      { status := 500, body := .errObj "bad json", service_called := false } ∧
    @api_payment Unit Unit (.error "bad json") (fun _ => .ok "")
        (fun _ _ _ _ => ()) =
      { status := 500, body := .errObj "bad json", service_called := false } ∧
    @api_delivery Unit Unit (.error "bad json") (fun _ _ => ()) =
      { status := 500, body := .errObj "bad json", service_called := false } ∧
    @api_order_status Unit (fun _ _ _ => .error "boom") 1 1 1 =
      { status := 500, body := .errObj "boom" } ∧
    @api_stock_level Unit (fun _ _ _ => .error "boom") 1 1 10 =
      { status := 500, body := .errObj "boom" } ∧
    api_health "t0" (.error "no database connection") (.ok true) =
      { status := 500,
        body := .unhealthy "unhealthy" "t0" "no database connection" } ∧
    @api_test_acid Unit "atomicity" (.ok ()) (.error "boom") (.ok ()) (.ok ())
        (.ok ()) (.ok ()) = { status := 500, body := .errObj "boom" } ∧
    @api_test_multi_region_create_order Unit Unit (.error "bad json")
        (fun _ => .ok 0) (fun _ _ _ _ => ()) (fun r => r) =
      { status := 500, body := .errObj "bad json", service_called := false } ∧
    api_test_multi_region_orders_by_region
        (fun _ _ => .ok { fields := some ["z"], rows := [[PyVal.int 1]] })
        "default" "Google Cloud Spanner" =
      { status := 500, body := .errObj "KeyError: warehouse_id" } ∧
    api_test_multi_region_recent_orders
        (fun _ _ => .ok { fields := some ["z"], rows := [[PyVal.int 1]] })
        20 "default" "Google Cloud Spanner" =
      { status := 500, body := .errObj "KeyError: o_id" } := by
  obtain ⟨h1, h2, h3, h4, h5, h6, h7, h8, h9, h10, h11, h12⟩ :=
    exceptions_never_escape
  exact ⟨h1 (fun _ _ => .error "boom") "SELECT 1" [] "boom" rfl,
    h2 (fun _ _ => [[("x", PyVal.none)]]) "default" 1 1 1 [[]]
      "KeyError: next_order_id" _ rfl,
    h3 Unit Unit (.error "bad json") (fun _ => .ok 0) (fun _ _ _ _ => ())
      "bad json" rfl,
    h4 Unit Unit (.error "bad json") (fun _ => .ok "") (fun _ _ _ _ => ())
      "bad json" rfl,
    h5 Unit Unit (.error "bad json") (fun _ _ => ()) "bad json" rfl,
    h6 Unit (fun _ _ _ => .error "boom") 1 1 1 "boom" rfl,
    h7 Unit (fun _ _ _ => .error "boom") 1 1 10 "boom" rfl,
    h8 "t0" (.error "no database connection") (.ok true)
      "no database connection" rfl,
    h9 Unit "atomicity" (.ok ()) (.error "boom") (.ok ()) (.ok ()) (.ok ())
      (.ok ()) "boom" rfl,
    h10 Unit Unit (.error "bad json") (fun _ => .ok 0) (fun _ _ _ _ => ())
      (fun r => r) "bad json" rfl,
    h11 (fun _ _ => .ok { fields := some ["z"], rows := [[PyVal.int 1]] })
      "default" "Google Cloud Spanner" "KeyError: warehouse_id" rfl,
    h12 (fun _ _ => .ok { fields := some ["z"], rows := [[PyVal.int 1]] })
      20 "default" "Google Cloud Spanner" "KeyError: o_id" rfl⟩

/-- Claim C8: with the external database modelled as a fixed pure oracle,
`get_orders` leaves the database state unchanged, and repeating the identical
call returns the identical result while still not changing the state. -/
theorem read_idempotent (s : DBState)
    (warehouse_id district_id customer_id : Option Int) (status : Option String)
    (limit offset : Int) :
    (get_ordersS s warehouse_id district_id customer_id status limit offset).1 = s ∧
    (get_ordersS
        ((get_ordersS s warehouse_id district_id customer_id status limit offset).1)
        warehouse_id district_id customer_id status limit offset).2 =
      (get_ordersS s warehouse_id district_id customer_id status limit offset).2 ∧
    (get_ordersS
        ((get_ordersS s warehouse_id district_id customer_id status limit offset).1)
        warehouse_id district_id customer_id status limit offset).1 = s :=
  ⟨rfl, rfl, rfl⟩

/-- Claim C10: `execute_new_order` with an empty items list returns
`\x7b"success": False, "error": "No items provided"\x7d` and issues no query at
all. -/
theorem new_order_empty_items (db : DBFun) (region_name : String)
    (warehouse_id district_id customer_id : Int) :
    execute_new_order db region_name warehouse_id district_id customer_id [] =
      (NOResult.failure "No items provided", []) :=
  rfl

/-- Inversion for a successful `Except` bind. -/
lemma except_bind_ok {ε α β : Type} (x : Except ε α) (f : α → Except ε β) (b : β)
    (h : x >>= f = .ok b) : ∃ a, x = .ok a ∧ f a = .ok b := by
  cases x with
  | error e => exact absurd h (by simp [Bind.bind, Except.bind])
  | ok a => exact ⟨a, rfl, by simpa [Bind.bind, Except.bind] using h⟩

/-- Claim C6: whenever `get_orders`, `get_payment_history_paginated` or
`get_inventory_paginated` completes without an exception, the returned dict
has `has_next = true` iff `offset + limit < total_count` and
`has_prev = true` iff `offset > 0`, `total_count` being the value extracted
from the COUNT query. -/
theorem paginated_flags_correct :
    (∀ (db : Driver) (warehouse_id district_id customer_id : Option Int)
      (status : Option String) (limit offset : Int) (page : OrdersPage),
      get_orders_body db warehouse_id district_id customer_id status limit offset =
        .ok page →
      get_orders db warehouse_id district_id customer_id status limit offset = page ∧
      (page.has_next = true ↔ page.offset + page.limit < page.total_count) ∧
      (page.has_prev = true ↔ page.offset > 0)) ∧
    (∀ (db : Driver) (warehouse_id district_id customer_id : Option Int)
      (limit offset : Int) (page : PaymentsPage),
      get_payment_history_paginated_body db warehouse_id district_id customer_id
        limit offset = .ok page →
      get_payment_history_paginated db warehouse_id district_id customer_id limit
        offset = page ∧
      (page.has_next = true ↔ page.offset + page.limit < page.total_count) ∧
      (page.has_prev = true ↔ page.offset > 0)) ∧
    (∀ (db : Driver) (warehouse_id low_stock_threshold : Option Int)
      (item_search : Option String) (limit offset : Int) (page : InventoryPage),
      get_inventory_paginated_body db warehouse_id low_stock_threshold item_search
        limit offset = .ok page →
      get_inventory_paginated db warehouse_id low_stock_threshold item_search limit
        offset = page ∧
      (page.has_next = true ↔ page.offset + page.limit < page.total_count) ∧
      (page.has_prev = true ↔ page.offset > 0)) := by
  refine ⟨?_, ?_, ?_⟩
  · intro db warehouse_id district_id customer_id status limit offset page h
    refine ⟨by simp [get_orders, h], ?_⟩
    simp only [get_orders_body] at h
    obtain ⟨countRes, -, h⟩ := except_bind_ok _ _ _ h
    obtain ⟨total_count, -, h⟩ := except_bind_ok _ _ _ h
    obtain ⟨mainRes, -, h⟩ := except_bind_ok _ _ _ h
    simp only [pure, Except.pure, Except.ok.injEq] at h
    subst h
    simp
  · intro db warehouse_id district_id customer_id limit offset page h
    refine ⟨by simp [get_payment_history_paginated, h], ?_⟩
    simp only [get_payment_history_paginated_body] at h
    obtain ⟨countRes, -, h⟩ := except_bind_ok _ _ _ h
    obtain ⟨total_count, -, h⟩ := except_bind_ok _ _ _ h
    obtain ⟨mainRes, -, h⟩ := except_bind_ok _ _ _ h
    simp only [pure, Except.pure, Except.ok.injEq] at h
    subst h
    simp
  · intro db warehouse_id low_stock_threshold item_search limit offset page h
    refine ⟨by simp [get_inventory_paginated, h], ?_⟩
    simp only [get_inventory_paginated_body] at h
    obtain ⟨countRes, -, h⟩ := except_bind_ok _ _ _ h
    obtain ⟨total_count, -, h⟩ := except_bind_ok _ _ _ h
    obtain ⟨mainRes, -, h⟩ := except_bind_ok _ _ _ h
    simp only [pure, Except.pure, Except.ok.injEq] at h
    subst h
    simp

/-- Witness for C6: a driver returning a single-cell count row of 7 with no
metadata, `limit = 5`, `offset = 0`, for all three paginated reads. -/
theorem paginated_flags_correct_witness :
    (get_orders (fun _ _ => .ok { fields := Option.none, rows := [[PyVal.int 7]] })
        Option.none Option.none Option.none Option.none 5 0 =
      { orders := [[("o_id", PyVal.int 7)]], total_count := 7, limit := 5,
        offset := 0, has_next := true, has_prev := false } ∧
      ((true : Bool) = true ↔ (0 : Int) + 5 < 7) ∧
      ((false : Bool) = true ↔ (0 : Int) > 0)) ∧
    (get_payment_history_paginated
        (fun _ _ => .ok { fields := Option.none, rows := [[PyVal.int 7]] })
        Option.none Option.none Option.none 5 0 =
      { payments := [[("h_w_id", PyVal.int 7)]], total_count := 7, limit := 5,
        offset := 0, has_next := true, has_prev := false } ∧
      ((true : Bool) = true ↔ (0 : Int) + 5 < 7) ∧
      ((false : Bool) = true ↔ (0 : Int) > 0)) ∧
    (get_inventory_paginated
        (fun _ _ => .ok { fields := Option.none, rows := [[PyVal.int 7]] })
        Option.none Option.none Option.none 5 0 =
      { inventory := [[("s_i_id", PyVal.int 7)]], total_count := 7, limit := 5,
        offset := 0, has_next := true, has_prev := false } ∧
      ((true : Bool) = true ↔ (0 : Int) + 5 < 7) ∧
      ((false : Bool) = true ↔ (0 : Int) > 0)) := by
  obtain ⟨h1, h2, h3⟩ := paginated_flags_correct
  exact ⟨h1 _ _ _ _ _ 5 0 _ rfl, h2 _ _ _ _ 5 0 _ rfl, h3 _ _ _ _ 5 0 _ rfl⟩

/-- Lemma: `List.find?` returns the first element satisfying the predicate. -/
lemma find?_first_characterization {α : Type} (p : α → Bool) :
    ∀ (l : List α) (x : α), l.find? p = some x →
      ∃ i, l.get? i = some x ∧ p x = true ∧
        ∀ j, j < i → ∀ g, l.get? j = some g → p g = false := by
  intro l
  induction l with
  | nil => intro x h; simp at h
  | cons a as ih =>
    intro x h
    by_cases hp : p a = true
    · rw [List.find?_cons_of_pos _ hp] at h
      obtain rfl : a = x := by simpa using h
      refine ⟨0, rfl, hp, ?_⟩
      intro j hj
      exact absurd hj (Nat.not_lt_zero j)
    · rw [List.find?_cons_of_neg _ (by simpa using hp)] at h
      obtain ⟨i, h1, h2, h3⟩ := ih x h
      refine ⟨i + 1, by simpa using h1, h2, ?_⟩
      intro j hj g hg
      cases j with
      | zero =>
        obtain rfl : a = g := by simpa using hg
        simpa using hp
      | succ k => exact h3 k (Nat.lt_of_succ_lt_succ hj) g (by simpa using hg)

/-- Claim C2: a POST to `/api/new-order`, `/api/payment` or `/api/delivery`
whose JSON dict misses at least one required field is answered with HTTP 400
and the envelope `\x7b"error": "Missing required field: <field>"\x7d` naming the
first missing field in required-fields order, without invoking the service
operation. -/
theorem missing_field_envelopes {β : Type} (ρ₁ ρ₂ ρ₃ : Type)
    (data : List (String × β))
    (pylen : β → Except String Nat) (svc1 : β → β → β → β → ρ₁)
    (fmt2f : β → Except String String) (svc2 : β → β → β → β → ρ₂)
    (svc3 : β → β → ρ₃) :
    ((∃ f ∈ new_order_required_fields, hasKey data f = false) →
      api_new_order (.ok (some data)) pylen svc1 =
        { status := 400,
          body := .errObj ("Missing required field: " ++
            (firstMissing new_order_required_fields data).getD ""),
          service_called := false } ∧
      IsFirstMissing new_order_required_fields data
        ((firstMissing new_order_required_fields data).getD "")) ∧
    ((∃ f ∈ payment_required_fields, hasKey data f = false) →
      api_payment (.ok (some data)) fmt2f svc2 =
        { status := 400,
          body := .errObj ("Missing required field: " ++
            (firstMissing payment_required_fields data).getD ""),
          service_called := false } ∧
      IsFirstMissing payment_required_fields data
        ((firstMissing payment_required_fields data).getD "")) ∧
    ((∃ f ∈ delivery_required_fields, hasKey data f = false) →
      api_delivery (.ok (some data)) svc3 =
        { status := 400,
          body := .errObj ("Missing required field: " ++
            (firstMissing delivery_required_fields data).getD ""),
          service_called := false } ∧
      IsFirstMissing delivery_required_fields data
        ((firstMissing delivery_required_fields data).getD "")) := by
  refine ⟨?_, ?_, ?_⟩
  · rintro ⟨f, hf, hmiss⟩
    cases hfm : firstMissing new_order_required_fields data with
    | none =>
      rw [firstMissing, List.find?_eq_none] at hfm
      exact absurd hmiss (by simpa using hfm f hf)
    | some f0 =>
      constructor
      · simp [api_new_order, api_new_order_body, Bind.bind, Except.bind, hfm,
          pure, Except.pure]
      · obtain ⟨i, h1, h2, h3⟩ := find?_first_characterization _ _ _ hfm
        refine ⟨i, by simpa [hfm] using h1, by simpa [hfm] using h2, ?_⟩
        intro j hj g hg
        simpa using h3 j hj g hg
  · rintro ⟨f, hf, hmiss⟩
    cases hfm : firstMissing payment_required_fields data with
    | none =>
      rw [firstMissing, List.find?_eq_none] at hfm
      exact absurd hmiss (by simpa using hfm f hf)
    | some f0 =>
      constructor
      · simp [api_payment, api_payment_body, Bind.bind, Except.bind, hfm,
          pure, Except.pure]
      · obtain ⟨i, h1, h2, h3⟩ := find?_first_characterization _ _ _ hfm
        refine ⟨i, by simpa [hfm] using h1, by simpa [hfm] using h2, ?_⟩
        intro j hj g hg
        simpa using h3 j hj g hg
  · rintro ⟨f, hf, hmiss⟩
    cases hfm : firstMissing delivery_required_fields data with
    | none =>
      rw [firstMissing, List.find?_eq_none] at hfm
      exact absurd hmiss (by simpa using hfm f hf)
    | some f0 =>
      constructor
      · simp [api_delivery, api_delivery_body, Bind.bind, Except.bind, hfm,
          pure, Except.pure]
      · obtain ⟨i, h1, h2, h3⟩ := find?_first_characterization _ _ _ hfm
        refine ⟨i, by simpa [hfm] using h1, by simpa [hfm] using h2, ?_⟩
        intro j hj g hg
        simpa using h3 j hj g hg

/-- Witness for C2: the empty JSON dict misses every field; all three
endpoints answer 400 naming `warehouse_id`, the first required field. -/
theorem missing_field_envelopes_witness :
    (@api_new_order Unit Unit (.ok (some [])) (fun _ => .ok 0)
        (fun _ _ _ _ => ()) =
      { status := 400, body := .errObj "Missing required field: warehouse_id",
        service_called := false } ∧
      IsFirstMissing new_order_required_fields ([] : List (String × Unit))
        "warehouse_id") ∧
    (@api_payment Unit Unit (.ok (some [])) (fun _ => .ok "")
        (fun _ _ _ _ => ()) =
      { status := 400, body := .errObj "Missing required field: warehouse_id",
        service_called := false } ∧
      IsFirstMissing payment_required_fields ([] : List (String × Unit))
        "warehouse_id") ∧
    (@api_delivery Unit Unit (.ok (some [])) (fun _ _ => ()) =
      { status := 400, body := .errObj "Missing required field: warehouse_id",
        service_called := false } ∧
      IsFirstMissing delivery_required_fields ([] : List (String × Unit))
        "warehouse_id") := by
  have h := missing_field_envelopes Unit Unit Unit ([] : List (String × Unit))
    (fun _ => .ok 0) (fun _ _ _ _ => ()) (fun _ => .ok "") (fun _ _ _ _ => ())
    (fun _ _ => ())
  exact ⟨h.1 ⟨"warehouse_id", by simp [new_order_required_fields], rfl⟩,
    h.2.1 ⟨"warehouse_id", by simp [payment_required_fields], rfl⟩,
    h.2.2 ⟨"warehouse_id", by simp [delivery_required_fields], rfl⟩⟩

/-- Every query the New Order per-item loop issues is the item query or the
stock query. -/
lemma newOrderLoop_sql (db : DBFun) (warehouse_id district_id : Int) (oid : PyVal) :
    ∀ (items : List Row) (i : Nat) (tot : PyVal) (ols : List Row) (qr : QueryRec),
      qr ∈ (newOrderLoop db warehouse_id district_id oid items i tot ols).2 →
      qr.sql = item_query ∨ qr.sql = stock_query := by
  intro items
  induction items with
  | nil => intro i tot ols qr h; simp [newOrderLoop] at h
  | cons item rest ih =>
    intro i tot ols qr h
    simp only [newOrderLoop] at h
    split at h
    · simp at h
      subst h
      left
      rfl
    · split at h
      · simp at h
        rcases h with h | h
        · subst h; left; rfl
        · subst h; right; rfl
      · split at h
        · simp at h
          rcases h with h | h
          · subst h; left; rfl
          · subst h; right; rfl
        · simp only [List.mem_cons] at h
          rcases h with h | h | h
          · subst h; left; rfl
          · subst h; right; rfl
          · exact ih _ _ _ qr h

/-- The trace of `execute_new_order` equals the trace of its body. -/
lemma execute_new_order_trace_eq (db : DBFun) (region_name : String)
    (warehouse_id district_id customer_id : Int) (items : List Row) :
    (execute_new_order db region_name warehouse_id district_id customer_id items).2 =
      (execute_new_order_body db region_name warehouse_id district_id customer_id
        items).2 := by
  rcases hb : execute_new_order_body db region_name warehouse_id district_id
    customer_id items with ⟨out, t⟩
  cases out <;> simp [execute_new_order, hb]

/-- Every query the body of `execute_new_order` issues is one of the six
SELECT texts of the service. -/
lemma execute_new_order_body_trace_sql (db : DBFun) (region_name : String)
    (warehouse_id district_id customer_id : Int) (items : List Row) :
    ∀ qr ∈ (execute_new_order_body db region_name warehouse_id district_id
        customer_id items).2,
      qr.sql = customer_query ∨ qr.sql = warehouse_query ∨
      qr.sql = district_query ∨ qr.sql = order_id_query ∨
      qr.sql = item_query ∨ qr.sql = stock_query := by
  simp only [execute_new_order_body]
  split
  · intro qr h
    simp at h
  · split
    · intro qr h
      simp at h
      simp [h]
    · split
      · intro qr h
        simp at h
        rcases h with h | h <;> simp [h]
      · split
        · intro qr h
          simp at h
          rcases h with h | h | h <;> simp [h]
        · split
          · intro qr h
            simp at h
            rcases h with h | h | h | h <;> simp [h]
          · split
            · intro qr h
              simp at h
              rcases h with h | h | h | h <;> simp [h]
            · split
              · intro qr h
                simp at h
                rcases h with h | h | h | h | h
                · simp [h]
                · simp [h]
                · simp [h]
                · simp [h]
                · rcases newOrderLoop_sql db warehouse_id district_id _ _ _ _ _
                    qr h with h2 | h2 <;> simp [h2]
              · intro qr h
                simp at h
                rcases h with h | h | h | h | h
                · simp [h]
                · simp [h]
                · simp [h]
                · simp [h]
                · rcases newOrderLoop_sql db warehouse_id district_id _ _ _ _ _
                    qr h with h2 | h2 <;> simp [h2]
              · split
                · intro qr h
                  simp at h
                  rcases h with h | h | h | h | h
                  · simp [h]
                  · simp [h]
                  · simp [h]
                  · simp [h]
                  · rcases newOrderLoop_sql db warehouse_id district_id _ _ _ _ _
                      qr h with h2 | h2 <;> simp [h2]
                · intro qr h
                  simp at h
                  rcases h with h | h | h | h | h
                  · simp [h]
                  · simp [h]
                  · simp [h]
                  · simp [h]
                  · rcases newOrderLoop_sql db warehouse_id district_id _ _ _ _ _
                      qr h with h2 | h2 <;> simp [h2]

/-- Every query `execute_new_order` issues is one of the six SELECT texts of
the service. -/
lemma execute_new_order_trace_sql (db : DBFun) (region_name : String)
    (warehouse_id district_id customer_id : Int) (items : List Row) :
    ∀ qr ∈ (execute_new_order db region_name warehouse_id district_id customer_id
        items).2,
      qr.sql = customer_query ∨ qr.sql = warehouse_query ∨
      qr.sql = district_query ∨ qr.sql = order_id_query ∨
      qr.sql = item_query ∨ qr.sql = stock_query := by
  intro qr h
  rw [execute_new_order_trace_eq] at h
  exact execute_new_order_body_trace_sql db region_name warehouse_id district_id
    customer_id items qr h

set_option maxRecDepth 40000 in
/-- The six SQL texts of the New Order service are pure SELECT reads. -/
lemma service_queries_select_only :
    isSelectOnly customer_query = true ∧ isSelectOnly warehouse_query = true ∧
    isSelectOnly district_query = true ∧ isSelectOnly order_id_query = true ∧
    isSelectOnly item_query = true ∧ isSelectOnly stock_query = true := by
  exact ⟨by decide, by decide, by decide, by decide, by decide, by decide⟩

/-- Inversion for a successful `Except` functor map. -/
lemma except_map_ok {ε α β : Type} (f : α → β) (x : Except ε α) (b : β)
    (h : f <$> x = .ok b) : ∃ a, x = .ok a ∧ f a = b := by
  cases x with
  | error e => exact absurd h (by simp [Functor.map, Except.map])
  | ok a => exact ⟨a, rfl, by simpa [Functor.map, Except.map] using h⟩

/-- A success dict produced by the body of `execute_new_order` always carries
the literal simulation message of order_service.py line 178. -/
lemma execute_new_order_body_message (db : DBFun) (region_name : String)
    (warehouse_id district_id customer_id : Int) (items : List Row) :
    ∀ oid name amt cnt reg msg,
      (execute_new_order_body db region_name warehouse_id district_id customer_id
        items).1 = .ok (.success oid name amt cnt reg msg) →
      msg = "Order created successfully (simulated - no actual database changes)" := by
  simp only [execute_new_order_body]
  split
  · intro oid name amt cnt reg msg h
    simp at h
  · split
    · intro oid name amt cnt reg msg h
      simp at h
    · split
      · intro oid name amt cnt reg msg h
        simp at h
      · split
        · intro oid name amt cnt reg msg h
          simp at h
        · split
          · intro oid name amt cnt reg msg h
            simp at h
          · split
            · intro oid name amt cnt reg msg h
              simp at h
            · split
              · intro oid name amt cnt reg msg h
                simp at h
              · intro oid name amt cnt reg msg h
                simp at h
              · split
                · intro oid name amt cnt reg msg h
                  simp at h
                · rename_i r heq
                  intro oid name amt cnt reg msg h
                  simp only [Except.ok.injEq] at h
                  rw [h] at heq
                  obtain ⟨v1, -, heq⟩ := except_bind_ok _ _ _ heq
                  obtain ⟨v2, -, heq⟩ := except_bind_ok _ _ _ heq
                  obtain ⟨v3, -, heq⟩ := except_bind_ok _ _ _ heq
                  obtain ⟨v4, -, heq⟩ := except_bind_ok _ _ _ heq
                  obtain ⟨v5, -, heq⟩ := except_bind_ok _ _ _ heq
                  obtain ⟨v6, -, heq⟩ := except_bind_ok _ _ _ heq
                  obtain ⟨v7, -, heq⟩ := except_bind_ok _ _ _ heq
                  obtain ⟨v8, -, heq⟩ := except_bind_ok _ _ _ heq
                  obtain ⟨v9, -, heq⟩ := except_bind_ok _ _ _ heq
                  obtain ⟨v10, -, heq⟩ := except_bind_ok _ _ _ heq
                  obtain ⟨v11, -, heq⟩ := except_bind_ok _ _ _ heq
                  obtain ⟨v12, -, heq2⟩ := except_map_ok _ _ _ heq
                  simp only [NOResult.success.injEq] at heq2
                  exact heq2.2.2.2.2.2.symm

/-- Claim C3: every query `OrderService.execute_new_order` issues to the
connector is a pure `SELECT` (no `INSERT`, `UPDATE` or `DELETE` anywhere in
the text), so the database state is unchanged by the New Order transaction;
and a successful result carries the message saying the order creation was
simulated with no actual database changes. -/
theorem new_order_read_only (db : DBFun) (region_name : String)
    (warehouse_id district_id customer_id : Int) (items : List Row) :
    (∀ qr ∈ (execute_new_order db region_name warehouse_id district_id customer_id
        items).2, isSelectOnly qr.sql = true) ∧
    (∀ oid name amt cnt reg msg,
      (execute_new_order db region_name warehouse_id district_id customer_id
        items).1 = .success oid name amt cnt reg msg →
      msg = "Order created successfully (simulated - no actual database changes)") := by
  constructor
  · intro qr h
    obtain ⟨s1, s2, s3, s4, s5, s6⟩ := service_queries_select_only
    rcases execute_new_order_trace_sql db region_name warehouse_id district_id
      customer_id items qr h with h1 | h1 | h1 | h1 | h1 | h1 <;> rw [h1]
    · exact s1
    · exact s2
    · exact s3
    · exact s4
    · exact s5
    · exact s6
  · intro oid name amt cnt reg msg h
    rcases hb : execute_new_order_body db region_name warehouse_id district_id
      customer_id items with ⟨out, t⟩
    cases out with
    | error e =>
      have h1 : (execute_new_order db region_name warehouse_id district_id
          customer_id items).1 = .failure e := by
        simp [execute_new_order, hb]
      rw [h1] at h
      simp at h
    | ok r =>
      have h1 : (execute_new_order db region_name warehouse_id district_id
          customer_id items).1 = r := by
        simp [execute_new_order, hb]
      rw [h1] at h
      refine execute_new_order_body_message db region_name warehouse_id district_id
        customer_id items oid name amt cnt reg msg ?_
      rw [hb, h]

set_option maxRecDepth 200000 in
/-- Witness for C3: on the demo oracle the first issued query is the customer
SELECT, and the (successful) run reports the simulation message. -/
theorem new_order_read_only_witness :
    ((execute_new_order demoDb "default" 1 1 1 demoItems).2.map QueryRec.sql =
      [customer_query, warehouse_query, district_query, order_id_query,
       item_query, stock_query, item_query, stock_query]) ∧
    isSelectOnly customer_query = true ∧
    (execute_new_order demoDb "default" 1 1 1 demoItems).1.messageField =
      some "Order created successfully (simulated - no actual database changes)" := by
  have h := new_order_read_only demoDb "default" 1 1 1 demoItems
  refine ⟨rfl, ?_, ?_⟩
  · have hmem :
        QueryRec.mk customer_query (newOrderCustomerParams 1 1 1) ∈
          (execute_new_order demoDb "default" 1 1 1 demoItems).2 := by
      rw [show (execute_new_order demoDb "default" 1 1 1 demoItems).2 =
        QueryRec.mk customer_query (newOrderCustomerParams 1 1 1) ::
        (execute_new_order demoDb "default" 1 1 1 demoItems).2.tail from rfl]
      exact List.mem_cons_self _ _
    exact h.1 _ hmem
  · rcases hs : (execute_new_order demoDb "default" 1 1 1 demoItems).1 with e |
      ⟨oid, name, amt, cnt, reg, msg⟩
    · have hsucc : (execute_new_order demoDb "default" 1 1 1
          demoItems).1.isSuccess = true := rfl
      rw [hs] at hsucc
      simp [NOResult.isSuccess] at hsucc
    · have := h.2 oid name amt cnt reg msg hs
      simp [NOResult.messageField, this]

/-- When the per-item loop completes, it has issued exactly two queries per
item. -/
lemma newOrderLoop_done_length (db : DBFun) (warehouse_id district_id : Int)
    (oid : PyVal) :
    ∀ (items : List Row) (i : Nat) (tot : PyVal) (ols : List Row),
      (∃ t ls, (newOrderLoop db warehouse_id district_id oid items i tot ols).1 =
        .ok (.done t ls)) →
      (newOrderLoop db warehouse_id district_id oid items i tot ols).2.length =
        2 * items.length := by
  intro items
  induction items with
  | nil =>
    intro i tot ols _
    simp [newOrderLoop]
  | cons item rest ih =>
    intro i tot ols hdone
    obtain ⟨t, ls, h⟩ := hdone
    simp only [newOrderLoop] at h ⊢
    split at h
    · simp at h
    · rename_i item_info irest heq1
      split at h
      · simp at h
      · rename_i stock srest heq2
        split at h
        · simp at h
        · rename_i new_total order_line heq3
          simp only at h
          simp only [heq1, heq2, heq3]
          have hrec := ih (i + 1) new_total (ols ++ [order_line]) ⟨t, ls, h⟩
          simp only [List.length_cons]
          omega

/-- A successful body run of `execute_new_order` issues exactly
`4 + 2 * |items|` queries. -/
lemma execute_new_order_body_count (db : DBFun) (region_name : String)
    (warehouse_id district_id customer_id : Int) (items : List Row) :
    ∀ r, (execute_new_order_body db region_name warehouse_id district_id
        customer_id items).1 = .ok r → r.isSuccess = true →
      (execute_new_order_body db region_name warehouse_id district_id customer_id
        items).2.length = 4 + 2 * items.length := by
  simp only [execute_new_order_body]
  split
  · intro r h hs
    simp at h
    rw [← h] at hs
    simp [NOResult.isSuccess] at hs
  · split
    · intro r h hs
      simp at h
      rw [← h] at hs
      simp [NOResult.isSuccess] at hs
    · split
      · intro r h hs
        simp at h
        rw [← h] at hs
        simp [NOResult.isSuccess] at hs
      · split
        · intro r h hs
          simp at h
          rw [← h] at hs
          simp [NOResult.isSuccess] at hs
        · split
          · intro r h hs
            simp at h
            rw [← h] at hs
            simp [NOResult.isSuccess] at hs
          · split
            · intro r h hs
              simp at h
            · split
              · intro r h hs
                simp at h
              · intro r h hs
                simp at h
                rw [← h] at hs
                simp [NOResult.isSuccess] at hs
              · rename_i total_amount order_lines heq
                split
                · intro r h hs
                  simp at h
                · intro r h hs
                  have hrec := newOrderLoop_done_length db warehouse_id district_id
                    _ items 0 (.int 0) [] ⟨total_amount, order_lines, heq⟩
                  simp only [List.length_cons, List.length_append, List.length_nil,
                    hrec]

/-- Claim C4 (amended): a call of `OrderService.execute_new_order` in which
every lookup succeeds issues exactly `4 + 2 * |items|` queries to the
connector (four header SELECTs plus an item and a stock SELECT per item) —
at least 6 for a non-empty items list, and more than 6 as soon as there are
two items. -/
theorem new_order_query_count (db : DBFun) (region_name : String)
    (warehouse_id district_id customer_id : Int) (items : List Row)
    (h : (execute_new_order db region_name warehouse_id district_id customer_id
      items).1.isSuccess = true) :
    (execute_new_order db region_name warehouse_id district_id customer_id
      items).2.length = 4 + 2 * items.length := by
  rcases hb : execute_new_order_body db region_name warehouse_id district_id
    customer_id items with ⟨out, t⟩
  cases out with
  | error e =>
    have h1 : (execute_new_order db region_name warehouse_id district_id
        customer_id items).1 = .failure e := by
      simp [execute_new_order, hb]
    rw [h1] at h
    simp [NOResult.isSuccess] at h
  | ok r =>
    have h1 : (execute_new_order db region_name warehouse_id district_id
        customer_id items).1 = r := by
      simp [execute_new_order, hb]
    have h2 := execute_new_order_body_count db region_name warehouse_id
      district_id customer_id items r (by rw [hb]) (by rw [← h1]; exact h)
    rw [execute_new_order_trace_eq]
    exact h2

set_option maxRecDepth 200000 in
/-- Counterexample for C4 as stated: a successful two-item New Order issues
eight queries, outside the claimed 3..6 range. -/
theorem new_order_query_count_counterexample :
    (execute_new_order demoDb "default" 1 1 1 demoItems).1.isSuccess = true ∧
    (execute_new_order demoDb "default" 1 1 1 demoItems).2.length = 8 ∧
    ¬(3 ≤ (execute_new_order demoDb "default" 1 1 1 demoItems).2.length ∧
      (execute_new_order demoDb "default" 1 1 1 demoItems).2.length ≤ 6) := by
  refine ⟨rfl, rfl, ?_⟩
  intro hc
  rw [show (execute_new_order demoDb "default" 1 1 1 demoItems).2.length = 8
    from rfl] at hc
  omega

set_option maxRecDepth 200000 in
/-- Witness for the amended C4 on the demo oracle: two items, eight queries. -/
theorem new_order_query_count_witness :
    (execute_new_order demoDb "default" 1 1 1 demoItems).1.isSuccess = true ∧
    (execute_new_order demoDb "default" 1 1 1 demoItems).2.length =
      4 + 2 * demoItems.length :=
  ⟨rfl, new_order_query_count demoDb "default" 1 1 1 demoItems rfl⟩

/-- Multiplication with a numeric left operand and a numeric-valued right operand. -/
lemma pyMul_num_left (p : ℚ) (v : PyVal) (q : ℚ) (hv : pyToQ v = some q) :
    pyMul (.num p) v = .ok (.num (p * q)) := by
  cases v <;> simp_all [pyMul, pyNumBin, pyAsInt, pyToQ]

/-- Multiplication with a numeric-valued left operand and a numeric right operand. -/
lemma pyMul_num_right (u : PyVal) (tq T : ℚ) (hu : pyToQ u = some tq) :
    pyMul u (.num T) = .ok (.num (tq * T)) := by
  cases u <;> simp_all [pyMul, pyNumBin, pyAsInt, pyToQ]

/-- Addition with a numeric-valued left operand and a numeric right operand. -/
lemma pyAdd_num_right (u : PyVal) (tq y : ℚ) (hu : pyToQ u = some tq) :
    pyAdd u (.num y) = .ok (.num (tq + y)) := by
  cases u <;> simp_all [pyAdd, pyNumBin, pyAsInt, pyToQ]

/-- Python `1 + x` on a numeric value. -/
lemma pyAdd_int1_num (x : ℚ) : pyAdd (.int 1) (.num x) = .ok (.num (1 + x)) := by
  simp [pyAdd, pyNumBin, pyAsInt, pyToQ]

/-- Python `1 - x` on a numeric value. -/
lemma pySub_int1_num (x : ℚ) : pySub (.int 1) (.num x) = .ok (.num (1 - x)) := by
  simp [pySub, pyNumBin, pyAsInt, pyToQ]

/-- Rounding a numeric value. -/
lemma pyRound2_num (x : ℚ) : pyRound2 (.num x) = .ok (.num (bankersRound2 x)) :=
  rfl

/-- When every item lookup succeeds, the New Order loop completes and its
accumulated total is the initial total plus the sum of
`i_price * quantity` over the items. -/
lemma newOrderLoop_spec (db : DBFun) (warehouse_id district_id : Int)
    (oid : PyVal) (price qty : Row → ℚ) :
    ∀ (items : List Row),
      (∀ it ∈ items, ItemLookupOk db warehouse_id district_id price qty it) →
      ∀ (i : Nat) (tot : PyVal) (tq : ℚ) (ols : List Row),
        pyToQ tot = some tq →
        ∃ t ls,
          (newOrderLoop db warehouse_id district_id oid items i tot ols).1 =
            .ok (.done t ls) ∧
          pyToQ t = some (tq + orderItemsTotalQ price qty items) := by
  intro items
  induction items with
  | nil =>
    intro _ i tot tq ols htot
    exact ⟨tot, ols, rfl, by simpa [orderItemsTotalQ] using htot⟩
  | cons item rest ih =>
    intro hok i tot tq ols htot
    obtain ⟨irow, irest, srow, srest, hidb, hprice, hqty, hsdb, hdist⟩ :=
      hok item (List.mem_cons_self _ _)
    obtain ⟨dist, hdistv⟩ := Option.isSome_iff_exists.mp hdist
    simp only [newOrderLoop, hidb, hsdb, getItem, hprice, hdistv, Bind.bind,
      Except.bind, Functor.map, Except.map, pure, Except.pure,
      pyMul_num_left _ _ _ hqty, pyAdd_num_right _ _ _ htot]
    obtain ⟨t, ls, hl, htq2⟩ := ih (fun it hit => hok it (List.mem_cons_of_mem _ hit))
      (i + 1) (.num (tq + price item * qty item)) (tq + price item * qty item)
      (ols ++ [[("ol_o_id", oid), ("ol_d_id", .int district_id),
        ("ol_w_id", .int warehouse_id), ("ol_number", .int ((i : Int) + 1)),
        ("ol_i_id", dictGetD item "item_id" PyVal.none),
        ("ol_supply_w_id", dictGetD item "supply_warehouse_id"
          (.int warehouse_id)),
        ("ol_quantity", dictGetD item "quantity" (.int 1)),
        ("ol_amount", .num (price item * qty item)), ("ol_dist_info", dist)]])
      rfl
    refine ⟨t, ls, ?_, ?_⟩
    · rw [← hl]
    · rw [htq2]
      congr 1
      simp only [orderItemsTotalQ, List.map_cons, List.sum_cons]
      ring

set_option maxHeartbeats 1000000 in
/-- Claim C9: when the customer, warehouse, district and every item and stock
lookup succeed (with numeric price, quantity, taxes and discount), the New
Order result has `success = true`,
`total_amount = round(sum(i_price * quantity) * (1 + d_tax + w_tax) *
(1 - c_discount), 2)`, `items_count = |items|`, and `order_id` equal to one
plus the maximum existing `o_id` for the warehouse and district (1 when none
exists). -/
theorem new_order_success_outcome (db : DBFun) (region_name : String)
    (warehouse_id district_id customer_id : Int) (items : List Row)
    (existing_o_ids : List Int) (crow wrow drow : Row)
    (crest wrest drest : List Row) (c_discount d_tax w_tax : ℚ)
    (price qty : Row → ℚ)
    (hne : items ≠ [])
    (hcust : db customer_query
      (newOrderCustomerParams warehouse_id district_id customer_id) =
      crow :: crest)
    (hdisc : dictGet crow "c_discount" = some (.num c_discount))
    (hfirst : (dictGet crow "c_first").isSome = true)
    (hmiddle : (dictGet crow "c_middle").isSome = true)
    (hlast : (dictGet crow "c_last").isSome = true)
    (hware : db warehouse_query (newOrderWarehouseParams warehouse_id) =
      wrow :: wrest)
    (hwtax : dictGet wrow "w_tax" = some (.num w_tax))
    (hdist : db district_query
      (newOrderDistrictParams warehouse_id district_id) = drow :: drest)
    (hdtax : dictGet drow "d_tax" = some (.num d_tax))
    (hoid : db order_id_query
      (newOrderDistrictParams warehouse_id district_id) =
      [[("next_order_id", PyVal.int ((existing_o_ids.max?.getD 0) + 1))]])
    (hitems : ∀ it ∈ items,
      ItemLookupOk db warehouse_id district_id price qty it) :
    (execute_new_order db region_name warehouse_id district_id customer_id
      items).1.isSuccess = true ∧
    (execute_new_order db region_name warehouse_id district_id customer_id
      items).1.orderIdField =
      some (.int ((existing_o_ids.max?.getD 0) + 1)) ∧
    (execute_new_order db region_name warehouse_id district_id customer_id
      items).1.totalAmountField =
      some (.num (bankersRound2 (orderItemsTotalQ price qty items *
        (1 + d_tax + w_tax) * (1 - c_discount)))) ∧
    (execute_new_order db region_name warehouse_id district_id customer_id
      items).1.itemsCountField = some items.length := by
  obtain ⟨vf, hvf⟩ := Option.isSome_iff_exists.mp hfirst
  obtain ⟨vm, hvm⟩ := Option.isSome_iff_exists.mp hmiddle
  obtain ⟨vl, hvl⟩ := Option.isSome_iff_exists.mp hlast
  obtain ⟨t, ls, hl, htq⟩ := newOrderLoop_spec db warehouse_id district_id
    (PyVal.int ((existing_o_ids.max?.getD 0) + 1)) price qty items hitems 0
    (.int 0) 0 [] rfl
  have hg1 : getItem crow "c_discount" = .ok (.num c_discount) := by
    simp [getItem, hdisc]
  have hg2 : getItem drow "d_tax" = .ok (.num d_tax) := by
    simp [getItem, hdtax]
  have hg3 : getItem wrow "w_tax" = .ok (.num w_tax) := by
    simp [getItem, hwtax]
  have hgf : getItem crow "c_first" = .ok vf := by simp [getItem, hvf]
  have hgm : getItem crow "c_middle" = .ok vm := by simp [getItem, hvm]
  have hgl : getItem crow "c_last" = .ok vl := by simp [getItem, hvl]
  have hoidget : getItem
      [("next_order_id", PyVal.int ((existing_o_ids.max?.getD 0) + 1))]
      "next_order_id" = .ok (.int ((existing_o_ids.max?.getD 0) + 1)) := rfl
  have hbody : (execute_new_order_body db region_name warehouse_id district_id
      customer_id items).1 = .ok (NOResult.success
        (.int ((existing_o_ids.max?.getD 0) + 1))
        (pyStr vf ++ " " ++ pyStr vm ++ " " ++ pyStr vl)
        (.num (bankersRound2 ((0 + orderItemsTotalQ price qty items) *
          (1 + d_tax + w_tax) * (1 - c_discount))))
        items.length region_name
        "Order created successfully (simulated - no actual database changes)") := by
    cases items with
    | nil => exact absurd rfl hne
    | cons item0 rest =>
      simp only [execute_new_order_body, List.isEmpty_cons, Bool.false_eq_true,
        if_false, hcust, hware, hdist, hoid, hoidget, hl, Bind.bind, Except.bind,
        Functor.map, Except.map, pure, Except.pure, hg1, hg2, hg3, hgf, hgm, hgl,
        pyAdd_int1_num, pyAdd_num_right (PyVal.num (1 + d_tax)) (1 + d_tax) w_tax
          rfl,
        pyMul_num_right t (0 + orderItemsTotalQ price qty (item0 :: rest))
          (1 + d_tax + w_tax) htq,
        pySub_int1_num,
        pyMul_num_right
          (PyVal.num ((0 + orderItemsTotalQ price qty (item0 :: rest)) *
            (1 + d_tax + w_tax)))
          ((0 + orderItemsTotalQ price qty (item0 :: rest)) *
            (1 + d_tax + w_tax))
          (1 - c_discount) rfl,
        pyRound2_num]
  rcases hb : execute_new_order_body db region_name warehouse_id district_id
    customer_id items with ⟨out, tr⟩
  rw [hb] at hbody
  cases out with
  | error e => exact absurd hbody (by simp)
  | ok r =>
    have hr : r = NOResult.success
        (.int ((existing_o_ids.max?.getD 0) + 1))
        (pyStr vf ++ " " ++ pyStr vm ++ " " ++ pyStr vl)
        (.num (bankersRound2 ((0 + orderItemsTotalQ price qty items) *
          (1 + d_tax + w_tax) * (1 - c_discount))))
        items.length region_name
        "Order created successfully (simulated - no actual database changes)" := by
      simpa using hbody
    subst hr
    have hrun : (execute_new_order db region_name warehouse_id district_id
        customer_id items).1 = NOResult.success
        (.int ((existing_o_ids.max?.getD 0) + 1))
        (pyStr vf ++ " " ++ pyStr vm ++ " " ++ pyStr vl)
        (.num (bankersRound2 ((0 + orderItemsTotalQ price qty items) *
          (1 + d_tax + w_tax) * (1 - c_discount))))
        items.length region_name
        "Order created successfully (simulated - no actual database changes)" := by
      simp [execute_new_order, hb]
    refine ⟨?_, ?_, ?_, ?_⟩ <;> rw [hrun]
    · rfl
    · rfl
    · simp only [NOResult.totalAmountField, Option.some.injEq, PyVal.num.injEq]
      rw [zero_add]
    · rfl

set_option maxRecDepth 400000 in
/-- Witness for C9 on the demo oracle: no existing orders (so order id 1),
zero taxes and discount, two items at price 2 and quantity 1. -/
theorem new_order_success_outcome_witness :
    (execute_new_order demoDb "default" 1 1 1 demoItems).1.isSuccess = true ∧
    (execute_new_order demoDb "default" 1 1 1 demoItems).1.orderIdField =
      some (.int 1) ∧
    (execute_new_order demoDb "default" 1 1 1 demoItems).1.totalAmountField =
      some (.num (bankersRound2 (orderItemsTotalQ (fun _ => 2) (fun _ => 1)
        demoItems * (1 + 0 + 0) * (1 - 0)))) ∧
    (execute_new_order demoDb "default" 1 1 1 demoItems).1.itemsCountField =
      some demoItems.length := by
  have h := new_order_success_outcome demoDb "default" 1 1 1 demoItems
    ([] : List Int)
    [("c_first", PyVal.str "A"), ("c_middle", PyVal.str "B"),
     ("c_last", PyVal.str "C"), ("c_discount", PyVal.num 0)]
    [("w_tax", PyVal.num 0)] [("d_tax", PyVal.num 0)] [] [] [] 0 0 0
    (fun _ => 2) (fun _ => 1)
    (by simp [demoItems]) rfl rfl rfl rfl rfl rfl rfl rfl rfl rfl
    (by
      intro it hit
      simp only [demoItems, List.mem_cons, List.not_mem_nil, or_false] at hit
      rcases hit with rfl | rfl
      · exact ⟨[("i_price", PyVal.num 2)], [],
          [("s_dist_01", PyVal.str "dist-info")], [], rfl, rfl, rfl, rfl, rfl⟩
      · exact ⟨[("i_price", PyVal.num 2)], [],
          [("s_dist_01", PyVal.str "dist-info")], [], rfl, rfl, rfl, rfl, rfl⟩)
  exact h
